import Mathlib

/-!
Verification of the tabby-autosyc repository (Tabby terminal configuration
synchronization) against its natural-language specification.

The development shallowly embeds the three Python sources:
* `tabby-sync.py`   — hash engine (MD5 over files/directories), archive
  packer/unpacker (namespace `TabbySync`);
* `tabby_config_sync.py` — the reconciliation engine `TabbyConfigSync.sync`
  and the structured merge `merge_configs` (namespace `ConfigSync`);
* `src/launcher.py` — the transport fallback chain `upload_to_gist` and the
  `sync_to_cloud` / `sync_from_cloud` operations (namespace `Launcher`).

Machine integers are modelled as `Nat` reduced mod `2^32` where the source's
`hashlib.md5` works on 32-bit words.  Network and filesystem effects are
modelled by explicit oracle booleans (one per externally fallible call),
and stateful code by explicit state passing.
-/

set_option autoImplicit false
set_option maxRecDepth 100000

namespace TabbySync

/-! ### MD5 (the digest used by `hashlib.md5` throughout the repository)

A byte-level implementation of RFC 1321 MD5: `md5 msg` is the 16-byte digest
of the byte list `msg`.  Words are `Nat` taken mod `2^32`. -/

/-- Truncate to a 32-bit word. -/
def w32 (n : Nat) : Nat := n % 4294967296

/-- 32-bit left rotation. -/
def rotl32 (x s : Nat) : Nat := w32 (x <<< s) ||| (x >>> (32 - s))

/-- 32-bit bitwise complement. -/
def not32 (x : Nat) : Nat := x ^^^ 4294967295

/-- The 64 MD5 sine-derived constants `K[i]`. -/
def md5K : List Nat :=
  [0xd76aa478, 0xe8c7b756, 0x242070db, 0xc1bdceee,
   0xf57c0faf, 0x4787c62a, 0xa8304613, 0xfd469501,
   0x698098d8, 0x8b44f7af, 0xffff5bb1, 0x895cd7be,
   0x6b901122, 0xfd987193, 0xa679438e, 0x49b40821,
   0xf61e2562, 0xc040b340, 0x265e5a51, 0xe9b6c7aa,
   0xd62f105d, 0x02441453, 0xd8a1e681, 0xe7d3fbc8,
   0x21e1cde6, 0xc33707d6, 0xf4d50d87, 0x455a14ed,
   0xa9e3e905, 0xfcefa3f8, 0x676f02d9, 0x8d2a4c8a,
   0xfffa3942, 0x8771f681, 0x6d9d6122, 0xfde5380c,
   0xa4beea44, 0x4bdecfa9, 0xf6bb4b60, 0xbebfbc70,
   0x289b7ec6, 0xeaa127fa, 0xd4ef3085, 0x04881d05,
   0xd9d4d039, 0xe6db99e5, 0x1fa27cf8, 0xc4ac5665,
   0xf4292244, 0x432aff97, 0xab9423a7, 0xfc93a039,
   0x655b59c3, 0x8f0ccc92, 0xffeff47d, 0x85845dd1,
   0x6fa87e4f, 0xfe2ce6e0, 0xa3014314, 0x4e0811a1,
   0xf7537e82, 0xbd3af235, 0x2ad7d2bb, 0xeb86d391]

/-- The 64 MD5 per-round left-rotation amounts `s[i]`. -/
def md5S : List Nat :=
  [7, 12, 17, 22, 7, 12, 17, 22, 7, 12, 17, 22, 7, 12, 17, 22,
   5,  9, 14, 20, 5,  9, 14, 20, 5,  9, 14, 20, 5,  9, 14, 20,
   4, 11, 16, 23, 4, 11, 16, 23, 4, 11, 16, 23, 4, 11, 16, 23,
   6, 10, 15, 21, 6, 10, 15, 21, 6, 10, 15, 21, 6, 10, 15, 21]

/-- `k` bytes of `n` in little-endian order. -/
def toLE (k n : Nat) : List Nat := (List.range k).map (fun i => (n >>> (8 * i)) % 256)

/-- MD5 padding: append `0x80`, zero bytes up to 56 mod 64, then the 64-bit
little-endian bit length. -/
def md5Pad (msg : List Nat) : List Nat :=
  let len := msg.length
  let padLen := (119 - len % 64) % 64
  msg ++ [0x80] ++ List.replicate padLen 0 ++ toLE 8 ((8 * len) % 18446744073709551616)

/-- Split a byte list into 64-byte chunks.  Structural recursion on a fuel
bound (the list length suffices: every step consumes at least one byte), so
that the kernel can evaluate the definition. -/
def chunks64Go : Nat → List Nat → List (List Nat)
  | 0, _ => []
  | _ + 1, [] => []
  | fuel + 1, a :: rest => (a :: rest).take 64 :: chunks64Go fuel ((a :: rest).drop 64)

/-- Split a byte list into 64-byte chunks. -/
def chunks64 (l : List Nat) : List (List Nat) := chunks64Go l.length l

/-- Little-endian 32-bit word `j` of a 64-byte chunk. -/
def leWordAt (b : List Nat) (j : Nat) : Nat :=
  b.getD (4 * j) 0 + 256 * b.getD (4 * j + 1) 0 +
    65536 * b.getD (4 * j + 2) 0 + 16777216 * b.getD (4 * j + 3) 0

/-- One MD5 round (round index `i`, message chunk `M`). -/
def md5Round (M : List Nat) (st : Nat × Nat × Nat × Nat) (i : Nat) :
    Nat × Nat × Nat × Nat :=
  let A := st.1; let B := st.2.1; let C := st.2.2.1; let D := st.2.2.2
  let FG : Nat × Nat :=
    if i < 16 then ((B &&& C) ||| (not32 B &&& D), i)
    else if i < 32 then ((D &&& B) ||| (not32 D &&& C), (5 * i + 1) % 16)
    else if i < 48 then (B ^^^ C ^^^ D, (3 * i + 5) % 16)
    else (C ^^^ (B ||| not32 D), (7 * i) % 16)
  let F := w32 (FG.1 + A + md5K.getD i 0 + leWordAt M FG.2)
  (D, w32 (B + rotl32 F (md5S.getD i 0)), B, C)

/-- Process one 64-byte chunk. -/
def md5Block (st : Nat × Nat × Nat × Nat) (M : List Nat) : Nat × Nat × Nat × Nat :=
  let r := (List.range 64).foldl (md5Round M) st
  (w32 (st.1 + r.1), w32 (st.2.1 + r.2.1), w32 (st.2.2.1 + r.2.2.1), w32 (st.2.2.2 + r.2.2.2))

/-- The MD5 digest (16 bytes) of a byte list. -/
def md5 (msg : List Nat) : List Nat :=
  let st := (chunks64 (md5Pad msg)).foldl md5Block (0x67452301, 0xefcdab89, 0x98badcfe, 0x10325476)
  toLE 4 st.1 ++ toLE 4 st.2.1 ++ toLE 4 st.2.2.1 ++ toLE 4 st.2.2.2

/-- UTF-8 encoding of one character (Python `str.encode()`). -/
def utf8Char (c : Char) : List Nat :=
  let n := c.toNat
  if n < 0x80 then [n]
  else if n < 0x800 then [0xC0 ||| (n >>> 6), 0x80 ||| (n &&& 0x3F)]
  else if n < 0x10000 then
    [0xE0 ||| (n >>> 12), 0x80 ||| ((n >>> 6) &&& 0x3F), 0x80 ||| (n &&& 0x3F)]
  else
    [0xF0 ||| (n >>> 18), 0x80 ||| ((n >>> 12) &&& 0x3F),
     0x80 ||| ((n >>> 6) &&& 0x3F), 0x80 ||| (n &&& 0x3F)]

/-- UTF-8 bytes of a string (Python `str.encode()`). -/
def utf8 (s : String) : List Nat := s.toList.flatMap utf8Char

/-- MD5 digest of a string's UTF-8 bytes — `hashlib.md5(s.encode()).hexdigest()`
up to hex rendering, used for both file-content and remote-content hashes. -/
def md5Str (s : String) : List Nat := md5 (utf8 s)

/-! ### Glob matching (`fnmatch.fnmatch`) and the exclusion patterns

`fnmatch` is embedded for the metacharacters `*` and `?`; the repository's
`EXCLUDE_PATTERNS` use no `[...]` character classes. -/

/-- Core of `fnmatch.fnmatch`: glob matching of a name against a pattern
(`*` matches any run of characters, `?` any single character).  Structural
recursion on a fuel bound so the kernel can evaluate it; every call shrinks
`name.length + pat.length`, so fuel `name.length + pat.length + 1` is never
exhausted. -/
def globMatchGo : Nat → List Char → List Char → Bool
  | 0, _, _ => false
  | _ + 1, [], [] => true
  | fuel + 1, [], p :: ps => p = '*' && globMatchGo fuel [] ps
  | _ + 1, _ :: _, [] => false
  | fuel + 1, c :: cs, p :: ps =>
    if p = '*' then globMatchGo fuel (c :: cs) ps || globMatchGo fuel cs (p :: ps)
    else if p = '?' then globMatchGo fuel cs ps
    else c = p && globMatchGo fuel cs ps

/-- `fnmatch.fnmatch(name, pattern)` on strings. -/
def fnmatch (name pat : String) : Bool :=
  globMatchGo (name.length + pat.length + 1) name.toList pat.toList

/-- `EXCLUDE_PATTERNS` of `tabby-sync.py`. -/
def EXCLUDE_PATTERNS : List String :=
  ["*.log", "*.tmp", "*.cache", "node_modules/*", "*.gitkeep"]

/-- `any(fnmatch.fnmatch(file, pattern) for pattern in EXCLUDE_PATTERNS)`:
whether a base name is excluded from hashing/packing. -/
def isExcluded (name : String) : Bool := EXCLUDE_PATTERNS.any (fnmatch name)

/-! ### Hash engine (`file_hash`, `dir_hash`)

`dir_hash` walks a directory with `os.walk` and, for each file whose base
name does not match an exclusion pattern, feeds the posix relative path
(UTF-8) and then the file's bytes into one incremental MD5.  The walk order
is whatever `os.walk` yields — the source does not sort.  A walk is modelled
as the list of files in the order `os.walk` produced them. -/

/-- One regular file as seen during a directory walk: its base name, the
path components relative to the directory being hashed, and its bytes. -/
structure WalkFile where
  base : String
  rel : List String
  bytes : List Nat
deriving DecidableEq

/-- `Path.relative_to(path).as_posix()`: components joined with `/`. -/
def posixJoin : List String → String
  | [] => ""
  | [c] => c
  | c :: cs => c ++ "/" ++ posixJoin cs

/-- The byte stream `dir_hash` feeds to its MD5 hasher: for every
non-excluded file, in walk order, the UTF-8 of its posix relative path
followed by its content bytes.  (`hasher.update` of MD5 concatenates.) -/
def dirHashStream (walk : List WalkFile) : List Nat :=
  walk.foldl
    (fun acc f => if isExcluded f.base then acc else acc ++ utf8 (posixJoin f.rel) ++ f.bytes)
    []

/-- `dir_hash(path)` for an existing directory whose `os.walk` enumeration is
`walk` (for a missing directory the source returns `""` before hashing). -/
def dir_hash (walk : List WalkFile) : List Nat := md5 (dirHashStream walk)

/-- `file_hash(path)` for an existing, readable file. -/
def file_hash (bytes : List Nat) : List Nat := md5 bytes

/-! ### Archive packer / unpacker (`create_zip_archive`, `extract_zip_archive`)

A sync item is a file or a directory under `CONFIG_DIR` (or absent).  The
archive is modelled as its list of entries: arcname (path components
relative to `CONFIG_DIR`) paired with the file's bytes. -/

/-- The on-disk state of one entry of `SYNC_ITEMS`.  For a directory,
`walk` lists the contained files with paths relative to `CONFIG_DIR`
(as `file_path.relative_to(CONFIG_DIR)` computes them). -/
inductive ItemState where
  | absent
  | file (name : String) (bytes : List Nat)
  | dir (name : String) (walk : List WalkFile)
deriving DecidableEq

/-- The zip entries `create_zip_archive` writes for one item: every
non-excluded file beneath a directory item (arcname = path relative to
`CONFIG_DIR`), or the file itself (arcname = its base name) when its name
matches no exclusion pattern; nothing for an absent item. -/
def zipEntriesOfItem : ItemState → List (List String × List Nat)
  | .absent => []
  | .dir _ walk =>
    walk.filterMap (fun f => if isExcluded f.base then none else some (f.rel, f.bytes))
  | .file name bytes => if isExcluded name then [] else [([name], bytes)]

/-- `create_zip_archive(items)`: the entries of the produced archive, in
order. -/
def create_zip_archive (items : List ItemState) : List (List String × List Nat) :=
  items.flatMap zipEntriesOfItem

/-- `extract_zip_archive`: every archive entry is extracted to
`CONFIG_DIR/<arcname>`; the result maps each arcname written to the bytes
it now holds (entries have pairwise distinct arcnames, so the parallel
extraction writes independent files). -/
def extract_zip_archive (entries : List (List String × List Nat)) :
    List (List String × List Nat) := entries

end TabbySync

namespace ConfigSync

/-! ## `tabby_config_sync.py` — the reconciliation engine

### Parsed configuration documents and `merge_configs`

A parsed YAML document (`yaml.safe_load(...) or {}`) is modelled as the
optional `profiles` list (the only section `merge_configs` treats
specially; a profile is its optional `name` key plus an opaque payload for
its remaining keys) together with an opaque code `rest` for the document's
other top-level keys (`0` encodes "no other keys", so `rest = 0` with no
`profiles` key is the falsy empty dict `{}`). -/

/-- One entry of a `profiles` list: its `name` key (absent allowed) and an
opaque encoding of its other keys. -/
structure Profile where
  name : Option String
  payload : Nat
deriving DecidableEq

/-- A parsed configuration document. -/
structure Config where
  profiles : Option (List Profile)
  rest : Nat
deriving DecidableEq

/-- Python truthiness of the dict: `{}` (no `profiles` key, no other keys)
is falsy. -/
def Config.truthy (c : Config) : Bool := c.profiles.isSome || decide (c.rest ≠ 0)

/-- `p.get('name', f'profile_{i}')` for the profile at index `i`. -/
def profName (i : Nat) (p : Profile) : String := p.name.getD ("profile_" ++ toString i)

/-- The Python dict `{p.get('name', f'profile_{i}'): p for i, p in enumerate(ps)}`
as its insertion list (a later binding of the same key overrides an earlier
one, which `dGet` implements). -/
def profDict (ps : List Profile) : List (String × Profile) :=
  ps.enum.map (fun ip => (profName ip.1 ip.2, ip.2))

/-- Python dict lookup on an insertion list: the value of the last binding
of the key, if any. -/
def dGet : List (String × Profile) → String → Option Profile
  | [], _ => none
  | kv :: d, k =>
    match dGet d k with
    | some v => some v
    | none => if kv.1 = k then some kv.2 else none

/-- The computed profile names of a list, in index order (the keys of
`profDict`). -/
def profNames (ps : List Profile) : List String := ps.enum.map (fun ip => profName ip.1 ip.2)

/-- `TabbyConfigSync.merge_configs(local_config, remote_config)`.
`all_profile_names` is a Python `set`, whose iteration order is
unspecified; the model fixes first-occurrence order (local keys before
remote-only keys).  The theorems below state only membership facts, which
do not depend on that choice. -/
def merge_configs (local_config remote_config : Config) : Config :=
  if local_config.truthy = false then remote_config
  else if remote_config.truthy = false then local_config
  else
    match local_config.profiles, remote_config.profiles with
    | some lps, some rps =>
      let local_profiles := profDict lps
      let remote_profiles := profDict rps
      let all_profile_names :=
        ((local_profiles.map Prod.fst) ++ (remote_profiles.map Prod.fst)).dedup
      let merged_profiles := all_profile_names.filterMap (fun name =>
        match dGet local_profiles name, dGet remote_profiles name with
        | some lp, some _ => some lp
        | some lp, none => some lp
        | none, some rp => some rp
        | none, none => none)
      { local_config with profiles := some merged_profiles }
    | _, _ => local_config

/-! ### The sync cycle state and oracles

`sync()`'s externally visible state: the local `config.yaml` (content, or
absent), the remote Gist (absent, or present without / with a
`config.yaml` file), the in-memory `SyncMetadata` record, and the contents
of the timestamped backup files created so far.  Each fallible external
call gets one oracle boolean; wall-clock time is the oracle `now`.
`save_metadata` swallows write errors, so the in-memory record is the
authoritative `SyncMetadata` here. -/

/-- One `sync_history` entry: `{"time": …, "action": …, "device_id": …}`. -/
structure HistEntry where
  time : Nat
  action : String
  device : Nat
deriving DecidableEq

/-- The `SyncMetadata` record (`_create_default_metadata` shape). -/
structure Metadata where
  last_sync_time : Option Nat
  last_local_hash : Option (List Nat)
  last_remote_hash : Option (List Nat)
  device_id : Nat
  sync_history : List HistEntry
deriving DecidableEq

/-- `_create_default_metadata()`: null timestamps and fingerprints, empty
history. -/
def default_metadata (device : Nat) : Metadata :=
  { last_sync_time := none, last_local_hash := none, last_remote_hash := none,
    device_id := device, sync_history := [] }

/-- The externally visible state of one sync target. -/
structure SyncState where
  /-- Content of the local `config.yaml`, `none` if the file is absent. -/
  localFile : Option String
  /-- The Gist: `none` = no Gist; `some none` = Gist without `config.yaml`;
  `some (some c)` = Gist whose `config.yaml` holds `c`. -/
  gist : Option (Option String)
  /-- The in-memory `SyncMetadata` record. -/
  metadata : Metadata
  /-- Contents of the `config.yaml.bak.<ts>` files created so far. -/
  backups : List String
deriving DecidableEq

/-- Oracles for the fallible external calls of one cycle. -/
structure Oracles where
  /-- The network calls of `create_gist_if_not_exists` succeed. -/
  ensureOk : Bool
  /-- `calculate_file_hash`'s byte-read of an existing `config.yaml`
  succeeds; on a read error the source's `except` returns `None` as the
  computed local fingerprint. -/
  readOk : Bool
  /-- The `GET` of `get_remote_config` succeeds. -/
  fetchOk : Bool
  /-- The server-reported `updated_at` of the fetch. -/
  updatedAt : Nat
  /-- `update_remote_config` (the `PATCH`) succeeds. -/
  uploadOk : Bool
  /-- Writing the local `config.yaml` succeeds. -/
  writeOk : Bool
  /-- Copying the local file to the backup path succeeds. -/
  backupOk : Bool
  /-- `datetime.now()` of this cycle. -/
  now : Nat
deriving DecidableEq

/-- The YAML library boundary: `parse` is `yaml.safe_load(s) or {}` (`none` =
the parser raised); `dump` is `yaml.dump(config, …)` (`none` = it raised).
Documents whose `safe_load` yields a non-mapping are outside the model (on
them `merge_configs` would raise `AttributeError`). -/
structure Yaml where
  parse : String → Option Config
  dump : Config → Option String

/-- Outcome of `sync()`: `True`, `False`, or an uncaught exception. -/
inductive SRes where
  | success
  | failure
  | exn
deriving DecidableEq

/-- `create_gist_if_not_exists`: a `GET` of the configured Gist id; on 404 a
new Gist (holding the local content or `""`) is created under a *fresh* id
and `self.gist_id` is only replaced when it was empty, so the record at the
configured id stays absent — the orphan new Gist is outside the modelled
state, and the same cycle's fetch of the configured id still fails.
Returns the outcome and the record at the configured id. -/
def create_gist_if_not_exists (gist : Option (Option String)) (netOk : Bool) :
    Bool × Option (Option String) :=
  if netOk = false then (false, gist)
  else
    match gist with
    | some f => (true, some f)
    | none => (true, none)

/-- `calculate_file_hash`: `none` when the file does not exist, and also
`none` when the byte-read of an existing file raises (the source's
`except` branch, oracle `readOk`); otherwise the MD5 of the file bytes. -/
def calculate_file_hash (localFile : Option String) (readOk : Bool) :
    Option (List Nat) :=
  if readOk = true then localFile.map TabbySync.md5Str else none

/-- `get_remote_config`: fetches `(content, updated_at)` of the Gist's
`config.yaml`, or `none` on network failure / missing file (the source's
`(None, None, None)`). -/
def get_remote_config (gist : Option (Option String)) (fetchOk : Bool)
    (updatedAt : Nat) : Option (String × Nat) :=
  if fetchOk = false then none
  else
    match gist with
    | some (some c) => some (c, updatedAt)
    | some none => none
    | none => none

/-- The metadata update every successful write path performs: set
`last_sync_time`, both stored fingerprints, and append one history entry. -/
def commitMeta (m : Metadata) (now : Nat) (ll lr : Option (List Nat))
    (action : String) : Metadata :=
  { m with last_sync_time := some now, last_local_hash := ll, last_remote_hash := lr,
           sync_history := m.sync_history ++ [⟨now, action, m.device_id⟩] }

/-- `TabbyConfigSync.sync(force_upload, force_download)`: one reconciliation
cycle over the state `st` with the oracles `o` and YAML boundary `y`.
Mirrors the source's control flow branch by branch; `calculate_file_hash`
yields `none` for a missing file and also when the byte-read raises
(`o.readOk = false`); a failed local write is modelled as leaving the file
unchanged. -/
def sync (y : Yaml) (force_upload force_download : Bool) (st : SyncState)
    (o : Oracles) : SRes × SyncState :=
  let eg := create_gist_if_not_exists st.gist o.ensureOk
  let st := { st with gist := eg.2 }
  if eg.1 = false then (.failure, st)
  else
    let local_hash := calculate_file_hash st.localFile o.readOk
    match get_remote_config st.gist o.fetchOk o.updatedAt with
    | none => (.failure, st)
    | some rr =>
      let remote_content := rr.1
      let remote_hash := TabbySync.md5Str remote_content
      let last_local := st.metadata.last_local_hash
      let last_remote := st.metadata.last_remote_hash
      if force_upload then
        match st.localFile with
        | none => (.failure, st)
        | some local_content =>
          if o.uploadOk then
            let m := commitMeta st.metadata o.now local_hash local_hash "upload"
            (.success, { st with gist := some (some local_content), metadata := m })
          else (.failure, st)
      else if force_download then
        if remote_content = "" then (.failure, st)
        else
          let st :=
            match st.localFile with
            | some lc => if o.backupOk then { st with backups := st.backups ++ [lc] } else st
            | none => st
          if o.writeOk then
            let m := commitMeta st.metadata o.now (some remote_hash) (some remote_hash) "download"
            (.success, { st with localFile := some remote_content, metadata := m })
          else (.failure, st)
      else if local_hash = last_local ∧ some remote_hash = last_remote then
        (.success, st)
      else if local_hash ≠ last_local ∧ some remote_hash = last_remote then
        match st.localFile with
        | none => (.exn, st)
        | some local_content =>
          if o.uploadOk then
            let m := commitMeta st.metadata o.now local_hash local_hash "upload"
            (.success, { st with gist := some (some local_content), metadata := m })
          else (.failure, st)
      else if local_hash = last_local ∧ some remote_hash ≠ last_remote then
        if remote_content = "" then (.failure, st)
        else
          let st :=
            match st.localFile with
            | some lc => if o.backupOk then { st with backups := st.backups ++ [lc] } else st
            | none => st
          if o.writeOk then
            let m := commitMeta st.metadata o.now (some remote_hash) (some remote_hash) "download"
            (.success, { st with localFile := some remote_content, metadata := m })
          else (.failure, st)
      else if local_hash ≠ last_local ∧ some remote_hash ≠ last_remote then
        match st.localFile with
        | none => (.failure, st)
        | some local_content =>
          match y.parse local_content with
          | none => (.failure, st)
          | some local_config =>
            match y.parse remote_content with
            | none => (.failure, st)
            | some remote_config =>
              let st := if o.backupOk then { st with backups := st.backups ++ [local_content] }
                        else st
              let merged_config := merge_configs local_config remote_config
              match y.dump merged_config with
              | none => (.failure, st)
              | some merged_content =>
                if o.writeOk then
                  let st := { st with localFile := some merged_content }
                  if o.uploadOk then
                    let merged_hash := TabbySync.md5Str merged_content
                    let m := commitMeta st.metadata o.now (some merged_hash) (some merged_hash)
                      "merge"
                    (.success, { st with gist := some (some merged_content), metadata := m })
                  else (.failure, st)
                else (.failure, st)
      else (.failure, st)

end ConfigSync

namespace Launcher

/-! ## `src/launcher.py` — transport fallback chain and cloud sync

`upload_to_gist` tries, in order: the system HTTP client (PowerShell), then
`requests` (when importable), then raw `urllib`; on the first success it
returns `True` immediately.  Only when all three fail does it write the
blob to a dated `fallback_backup_<ts>.yaml` file in `backups/` and return
`False`.  `sync_to_cloud` then distinguishes that offline-saved outcome (a
fresh fallback file exists) from a hard failure. -/

/-- The `SyncResult` enum of the launcher. -/
inductive SyncResult where
  | success
  | no_changes
  | conflict_resolved
  | error
  | cancelled
deriving DecidableEq

/-- Oracles for one `upload_to_gist` call. -/
structure UpOracles where
  /-- `self.github_token` is non-empty. -/
  tokenSet : Bool
  /-- Mechanism 1, `_upload_with_system_http`, succeeds. -/
  sysOk : Bool
  /-- `requests` was importable (`REQUESTS_AVAILABLE`). -/
  requestsAvailable : Bool
  /-- Mechanism 2, `_upload_with_requests`, succeeds. -/
  reqOk : Bool
  /-- Mechanism 3, `_upload_with_urllib_original`, succeeds. -/
  urllibOk : Bool
  /-- `_create_local_backup` manages to write the fallback file. -/
  fallbackSaveOk : Bool
  /-- Some pre-existing `fallback_backup_*.yaml` is less than 10 s old. -/
  staleRecentFallback : Bool
deriving DecidableEq

/-- `TabbyAutoSyncLauncher.upload_to_gist`: the returned boolean paired with
whether a local fallback file was created by this call. -/
def upload_to_gist (o : UpOracles) : Bool × Bool :=
  if o.tokenSet = false then (false, false)
  else if o.sysOk then (true, false)
  else if o.requestsAvailable && o.reqOk then (true, false)
  else if o.urllibOk then (true, false)
  else (false, o.fallbackSaveOk)

/-- `TabbyAutoSyncLauncher.sync_to_cloud` (its `force` parameter is unused
by the source).  A fallback file created by this very call is seconds old,
so it passes the `< 10 s` freshness test. -/
def sync_to_cloud (localExists : Bool) (o : UpOracles) : SyncResult × String :=
  if localExists = false then (.no_changes, "本地配置文件不存在")
  else
    let ur := upload_to_gist o
    if ur.1 then (.success, "成功上传配置到云端")
    else if ur.2 || o.staleRecentFallback then (.success, "网络不可用，已保存到本地备份")
    else (.error, "上传失败")

/-- State touched by `sync_from_cloud`: the Tabby `config.yaml` and the
contents of the `config_backup_*.yaml` files. -/
structure DownState where
  localFile : Option String
  backups : List String
deriving DecidableEq

/-- Oracles for one `sync_from_cloud` call. -/
structure DownOracles where
  /-- `self.tabby_config_path` is set (`APPDATA` was defined). -/
  pathFound : Bool
  /-- `download_from_gist()` result (`none` = download failed / no file). -/
  download : Option String
  /-- `create_backup`'s `shutil.copy2` succeeds. -/
  backupOk : Bool
  /-- Writing the config file succeeds. -/
  writeOk : Bool
  /-- `validate_config()` (YAML well-formedness) passes afterwards. -/
  validOk : Bool
  /-- The user answers `y` to the interactive rollback prompt. -/
  rollback : Bool
deriving DecidableEq

/-- `TabbyAutoSyncLauncher.sync_from_cloud`.  `create_backup` returns `None`
on failure (warning logged) and the overwrite proceeds regardless. -/
def sync_from_cloud (st : DownState) (o : DownOracles) :
    (SyncResult × String) × DownState :=
  if o.pathFound = false then ((.error, "Tabby 配置路径未找到"), st)
  else
    match o.download with
    | none => ((.no_changes, "云端配置不存在"), st)
    | some cloud =>
      if cloud = "" then ((.no_changes, "云端配置不存在"), st)
      else
        let bk : Option String :=
          match st.localFile with
          | some lc => if o.backupOk then some lc else none
          | none => none
        let st :=
          match bk with
          | some lc => { st with backups := st.backups ++ [lc] }
          | none => st
        if o.writeOk = false then ((.error, "同步失败"), st)
        else
          let st := { st with localFile := some cloud }
          if o.validOk = false then
            match bk with
            | some lc =>
              if o.rollback then
                ((.success, "已回滚到备份配置"), { st with localFile := some lc })
              else ((.success, "成功从云端同步配置"), st)
            | none => ((.success, "成功从云端同步配置"), st)
          else ((.success, "成功从云端同步配置"), st)

end Launcher

/-! ## Helper lemmas -/

namespace ConfigSync

theorem dGet_eq_none (d : List (String × Profile)) (k : String)
    (h : k ∉ d.map Prod.fst) : dGet d k = none := by
  induction d with
  | nil => rfl
  | cons kv rest ih =>
    simp only [List.map_cons, List.mem_cons] at h
    push_neg at h
    simp only [dGet, ih h.2, if_neg (Ne.symm h.1)]

theorem dGet_of_nodup (d : List (String × Profile)) (k : String) (v : Profile)
    (hn : (d.map Prod.fst).Nodup) (hm : (k, v) ∈ d) : dGet d k = some v := by
  induction d with
  | nil => exact absurd hm (List.not_mem_nil _)
  | cons kv rest ih =>
    simp only [List.map_cons, List.nodup_cons] at hn
    rcases List.mem_cons.mp hm with h | h
    · subst h
      simp [dGet, dGet_eq_none rest k hn.1]
    · simp only [dGet, ih hn.2 h]

theorem profDict_map_fst (ps : List Profile) :
    (profDict ps).map Prod.fst = profNames ps := by
  simp only [profDict, profNames, List.map_map]
  rfl

theorem mem_profDict (ps : List Profile) (ip : Nat × Profile) (h : ip ∈ ps.enum) :
    (profName ip.1 ip.2, ip.2) ∈ profDict ps := by
  exact List.mem_map.mpr ⟨ip, h, rfl⟩

end ConfigSync

namespace ConfigSync

theorem mergedProfiles_mem_of_local (lps rps : List Profile) (ip : Nat × Profile)
    (hnl : (profNames lps).Nodup) (hm : ip ∈ lps.enum) :
    ip.2 ∈ (((profDict lps).map Prod.fst ++ (profDict rps).map Prod.fst).dedup).filterMap
      (fun name =>
        match dGet (profDict lps) name, dGet (profDict rps) name with
        | some lp, some _ => some lp
        | some lp, none => some lp
        | none, some rp => some rp
        | none, none => none) := by
  have hd : dGet (profDict lps) (profName ip.1 ip.2) = some ip.2 :=
    dGet_of_nodup _ _ _ (by rw [profDict_map_fst]; exact hnl) (mem_profDict lps ip hm)
  refine List.mem_filterMap.mpr ⟨profName ip.1 ip.2, ?_, ?_⟩
  · refine List.mem_dedup.mpr (List.mem_append_left _ ?_)
    rw [profDict_map_fst]
    exact List.mem_map.mpr ⟨ip, hm, rfl⟩
  · rw [hd]
    cases dGet (profDict rps) (profName ip.1 ip.2) <;> rfl

end ConfigSync

/-- C4: when both parsed documents carry a `profiles` list keyed by (pairwise
distinct) names, `merge_configs` produces a profiles list that contains,
unchanged, every profile whose name occurs on only one side, and — for a name
present on both sides — the local side's profile (the default conflict
resolution).  Profiles are indexed as `enumerate` does, and a profile's key
is `p.get('name', f'profile_{i}')`. -/
theorem C4_merge_configs_profiles (lc rc : ConfigSync.Config)
    (lps rps : List ConfigSync.Profile)
    (h1 : lc.profiles = some lps) (h2 : rc.profiles = some rps)
    (hnl : (ConfigSync.profNames lps).Nodup) (hnr : (ConfigSync.profNames rps).Nodup) :
    ∃ ms, (ConfigSync.merge_configs lc rc).profiles = some ms ∧
      (∀ ip ∈ lps.enum, ConfigSync.profName ip.1 ip.2 ∈ ConfigSync.profNames rps →
        ip.2 ∈ ms) ∧
      (∀ ip ∈ lps.enum, ConfigSync.profName ip.1 ip.2 ∉ ConfigSync.profNames rps →
        ip.2 ∈ ms) ∧
      (∀ ip ∈ rps.enum, ConfigSync.profName ip.1 ip.2 ∉ ConfigSync.profNames lps →
        ip.2 ∈ ms) := by
  have hlt : lc.truthy = true := by simp [ConfigSync.Config.truthy, h1]
  have hrt : rc.truthy = true := by simp [ConfigSync.Config.truthy, h2]
  unfold ConfigSync.merge_configs
  rw [hlt, hrt]
  simp only [h1, h2]
  refine ⟨_, rfl, ?_, ?_, ?_⟩
  · intro ip hm _
    exact ConfigSync.mergedProfiles_mem_of_local lps rps ip hnl hm
  · intro ip hm _
    exact ConfigSync.mergedProfiles_mem_of_local lps rps ip hnl hm
  · intro ip hm hnot
    have hd : ConfigSync.dGet (ConfigSync.profDict rps) (ConfigSync.profName ip.1 ip.2)
        = some ip.2 :=
      ConfigSync.dGet_of_nodup _ _ _ (by rw [ConfigSync.profDict_map_fst]; exact hnr)
        (ConfigSync.mem_profDict rps ip hm)
    have hdn : ConfigSync.dGet (ConfigSync.profDict lps) (ConfigSync.profName ip.1 ip.2)
        = none := by
      apply ConfigSync.dGet_eq_none
      rw [ConfigSync.profDict_map_fst]
      exact hnot
    refine List.mem_filterMap.mpr ⟨ConfigSync.profName ip.1 ip.2, ?_, ?_⟩
    · refine List.mem_dedup.mpr (List.mem_append_right _ ?_)
      rw [ConfigSync.profDict_map_fst]
      exact List.mem_map.mpr ⟨ip, hm, rfl⟩
    · rw [hd, hdn]

/-- Witness for C4: merging a local document with the single profile `X` and
a remote document with the single, differently named profile `Y` yields a
profiles list containing `X` and `Y` (the spec's disjoint-sets scenario). -/
theorem C4_merge_configs_profiles_witness :
    (ConfigSync.Config.mk (some [⟨some "X", 1⟩]) 0).profiles = some [⟨some "X", 1⟩] ∧
    (ConfigSync.profNames [⟨some "X", 1⟩]).Nodup ∧
    ∃ ms, (ConfigSync.merge_configs (ConfigSync.Config.mk (some [⟨some "X", 1⟩]) 0)
        (ConfigSync.Config.mk (some [⟨some "Y", 2⟩]) 0)).profiles = some ms ∧
      (∀ ip ∈ ([⟨some "X", 1⟩] : List ConfigSync.Profile).enum,
        ConfigSync.profName ip.1 ip.2 ∈ ConfigSync.profNames [⟨some "Y", 2⟩] → ip.2 ∈ ms) ∧
      (∀ ip ∈ ([⟨some "X", 1⟩] : List ConfigSync.Profile).enum,
        ConfigSync.profName ip.1 ip.2 ∉ ConfigSync.profNames [⟨some "Y", 2⟩] → ip.2 ∈ ms) ∧
      (∀ ip ∈ ([⟨some "Y", 2⟩] : List ConfigSync.Profile).enum,
        ConfigSync.profName ip.1 ip.2 ∉ ConfigSync.profNames [⟨some "X", 1⟩] → ip.2 ∈ ms) :=
  ⟨rfl, by decide,
    C4_merge_configs_profiles _ _ _ _ rfl rfl (by decide) (by decide)⟩

/-- C3: with a token configured, `upload_to_gist` reports success on the
first delivery mechanism that succeeds and creates no local fallback file —
in particular when mechanisms 1 and 2 fail and mechanism 3 succeeds; only
when all mechanisms fail is the blob saved to a dated fallback file, and
`sync_to_cloud` then reports that as the distinct offline-saved outcome,
different from the plain-success outcome and not the hard-failure
outcome. -/
theorem C3_transport_fallback_chain (o : Launcher.UpOracles)
    (htok : o.tokenSet = true) :
    ((o.sysOk || o.requestsAvailable && o.reqOk || o.urllibOk) = true →
      Launcher.upload_to_gist o = (true, false)) ∧
    (o.sysOk = false → (o.requestsAvailable && o.reqOk) = false → o.urllibOk = true →
      Launcher.upload_to_gist o = (true, false) ∧
      Launcher.sync_to_cloud true o = (.success, "成功上传配置到云端")) ∧
    (o.sysOk = false → (o.requestsAvailable && o.reqOk) = false → o.urllibOk = false →
      Launcher.upload_to_gist o = (false, o.fallbackSaveOk) ∧
      (o.fallbackSaveOk = true →
        Launcher.sync_to_cloud true o = (.success, "网络不可用，已保存到本地备份") ∧
        Launcher.sync_to_cloud true o ≠ (.success, "成功上传配置到云端") ∧
        (Launcher.sync_to_cloud true o).1 ≠ Launcher.SyncResult.error)) := by
  refine ⟨?_, ?_, ?_⟩
  · intro h
    unfold Launcher.upload_to_gist
    rw [htok]
    rcases Bool.or_eq_true_iff.mp h with h1 | h2
    · rcases Bool.or_eq_true_iff.mp h1 with hs | hr
      · simp [hs]
      · simp [hr]
    · cases hs : o.sysOk <;> cases hr : o.requestsAvailable && o.reqOk <;> simp_all
  · intro h1 h2 h3
    constructor
    · unfold Launcher.upload_to_gist
      simp [htok, h1, h2, h3]
    · unfold Launcher.sync_to_cloud Launcher.upload_to_gist
      simp [htok, h1, h2, h3]
  · intro h1 h2 h3
    constructor
    · unfold Launcher.upload_to_gist
      simp [htok, h1, h2, h3]
    · intro hf
      unfold Launcher.sync_to_cloud Launcher.upload_to_gist
      simp [htok, h1, h2, h3, hf]

/-- Witness for C3: a concrete call where mechanisms 1 and 2 fail and
mechanism 3 succeeds reports success with no fallback file; a concrete call
where all three fail creates the fallback file and yields the offline-saved
outcome. -/
theorem C3_transport_fallback_chain_witness :
    (Launcher.upload_to_gist ⟨true, false, true, false, true, true, false⟩ = (true, false) ∧
      Launcher.sync_to_cloud true ⟨true, false, true, false, true, true, false⟩
        = (.success, "成功上传配置到云端")) ∧
    (Launcher.upload_to_gist ⟨true, false, true, false, false, true, false⟩ = (false, true) ∧
      Launcher.sync_to_cloud true ⟨true, false, true, false, false, true, false⟩
        = (.success, "网络不可用，已保存到本地备份")) :=
  ⟨(C3_transport_fallback_chain ⟨true, false, true, false, true, true, false⟩ rfl).2.1
     rfl (by decide) rfl,
   ((C3_transport_fallback_chain ⟨true, false, true, false, false, true, false⟩ rfl).2.2
     rfl (by decide) rfl).1,
   (((C3_transport_fallback_chain ⟨true, false, true, false, false, true, false⟩ rfl).2.2
     rfl (by decide) rfl).2 rfl).1⟩
namespace TabbySync

/-- The base name of an arcname (its last path component). -/
def baseName (p : List String) : String := p.getLastD ""

/-- Well-formedness of an item's on-disk model: every walk entry's recorded
base name is the last component of its relative path (as `os.walk` yields
them). -/
def ItemState.wf : ItemState → Bool
  | .dir _ w => w.all (fun f => baseName f.rel = f.base)
  | _ => true

/-- The non-excluded `(relative path, bytes)` subsequence of a walk, in walk
order. -/
def nonExcludedSeq (w : List WalkFile) : List (List String × List Nat) :=
  w.filterMap (fun f => if isExcluded f.base then none else some (f.rel, f.bytes))

theorem dirHashStream_acc (w : List WalkFile) (acc : List Nat) :
    w.foldl (fun a f => if isExcluded f.base then a
        else a ++ utf8 (posixJoin f.rel) ++ f.bytes) acc
      = acc ++ (nonExcludedSeq w).foldr
          (fun rb a => utf8 (posixJoin rb.1) ++ rb.2 ++ a) [] := by
  induction w generalizing acc with
  | nil => simp [nonExcludedSeq]
  | cons f rest ih =>
    rw [List.foldl_cons]
    by_cases h : isExcluded f.base = true
    · rw [if_pos h, ih]
      have hseq : nonExcludedSeq (f :: rest) = nonExcludedSeq rest := by
        simp [nonExcludedSeq, List.filterMap_cons, h]
      rw [hseq]
    · rw [if_neg h, ih]
      have hseq : nonExcludedSeq (f :: rest) = (f.rel, f.bytes) :: nonExcludedSeq rest := by
        simp [nonExcludedSeq, List.filterMap_cons, h]
      rw [hseq, List.foldr_cons]
      simp [List.append_assoc]

theorem dirHashStream_eq (w : List WalkFile) :
    dirHashStream w
      = (nonExcludedSeq w).foldr (fun rb a => utf8 (posixJoin rb.1) ++ rb.2 ++ a) [] := by
  have := dirHashStream_acc w []
  simpa [dirHashStream] using this

end TabbySync

/-- C7: unpacking the archive produced by packing a set of sync items
reproduces byte-identical content for every non-excluded file beneath them
(directory entries keep their `CONFIG_DIR`-relative path, top-level file
items their base name), and no entry of the archive — hence of the unpacked
result — has a base name matching an exclusion pattern.  The well-formedness
hypothesis states that a walk entry's recorded base name is the last
component of its relative path. -/
theorem C7_pack_unpack_roundtrip (items : List TabbySync.ItemState)
    (hwf : items.all TabbySync.ItemState.wf = true) :
    (∀ s ∈ items, ∀ n w, s = TabbySync.ItemState.dir n w → ∀ f ∈ w,
      TabbySync.isExcluded f.base = false →
      (f.rel, f.bytes) ∈ TabbySync.extract_zip_archive (TabbySync.create_zip_archive items)) ∧
    (∀ s ∈ items, ∀ n b, s = TabbySync.ItemState.file n b →
      TabbySync.isExcluded n = false →
      ([n], b) ∈ TabbySync.extract_zip_archive (TabbySync.create_zip_archive items)) ∧
    (∀ e ∈ TabbySync.extract_zip_archive (TabbySync.create_zip_archive items),
      TabbySync.isExcluded (TabbySync.baseName e.1) = false) := by
  refine ⟨?_, ?_, ?_⟩
  · intro s hs n w hsw f hf hex
    refine List.mem_flatMap.mpr ⟨s, hs, ?_⟩
    subst hsw
    simp only [TabbySync.zipEntriesOfItem]
    exact List.mem_filterMap.mpr ⟨f, hf, by rw [hex]; rfl⟩
  · intro s hs n b hsb hex
    refine List.mem_flatMap.mpr ⟨s, hs, ?_⟩
    subst hsb
    simp [TabbySync.zipEntriesOfItem, hex]
  · intro e he
    rcases List.mem_flatMap.mp he with ⟨s, hs, hes⟩
    cases s with
    | absent => simp [TabbySync.zipEntriesOfItem] at hes
    | file n b =>
      simp only [TabbySync.zipEntriesOfItem] at hes
      by_cases hex : TabbySync.isExcluded n
      · simp [hex] at hes
      · simp only [hex, Bool.false_eq_true, if_false, List.mem_singleton] at hes
        subst hes
        simpa [TabbySync.baseName] using (Bool.not_eq_true _).mp hex
    | dir n w =>
      simp only [TabbySync.zipEntriesOfItem] at hes
      rcases List.mem_filterMap.mp hes with ⟨f, hf, hfe⟩
      by_cases hex : TabbySync.isExcluded f.base
      · simp [hex] at hfe
      · simp only [hex, Bool.false_eq_true, if_false, Option.some.injEq] at hfe
        subst hfe
        have hb : TabbySync.baseName f.rel = f.base := by
          have := List.all_eq_true.mp hwf _ hs
          simp only [TabbySync.ItemState.wf, List.all_eq_true] at this
          exact of_decide_eq_true (this f hf)
        simp only [hb]
        exact (Bool.not_eq_true _).mp hex


/-- Witness for C7: a concrete item set — a top-level file, a directory
containing a kept file and an excluded `debug.log`, and an excluded
top-level `x.tmp` — round-trips its non-excluded files and the archive has
no excluded base name. -/
theorem C7_pack_unpack_roundtrip_witness :
    ([TabbySync.ItemState.file "config.yaml" [1, 2],
        TabbySync.ItemState.dir "plugins"
          [⟨"a.js", ["plugins", "a.js"], [3]⟩, ⟨"debug.log", ["plugins", "debug.log"], [4]⟩],
        TabbySync.ItemState.file "x.tmp" [9]].all TabbySync.ItemState.wf = true) ∧
    ((∀ s ∈ [TabbySync.ItemState.file "config.yaml" [1, 2],
        TabbySync.ItemState.dir "plugins"
          [⟨"a.js", ["plugins", "a.js"], [3]⟩, ⟨"debug.log", ["plugins", "debug.log"], [4]⟩],
        TabbySync.ItemState.file "x.tmp" [9]], ∀ n w, s = TabbySync.ItemState.dir n w →
        ∀ f ∈ w, TabbySync.isExcluded f.base = false →
        (f.rel, f.bytes) ∈ TabbySync.extract_zip_archive (TabbySync.create_zip_archive
          [TabbySync.ItemState.file "config.yaml" [1, 2],
           TabbySync.ItemState.dir "plugins"
             [⟨"a.js", ["plugins", "a.js"], [3]⟩, ⟨"debug.log", ["plugins", "debug.log"], [4]⟩],
           TabbySync.ItemState.file "x.tmp" [9]])) ∧
      (∀ s ∈ [TabbySync.ItemState.file "config.yaml" [1, 2],
        TabbySync.ItemState.dir "plugins"
          [⟨"a.js", ["plugins", "a.js"], [3]⟩, ⟨"debug.log", ["plugins", "debug.log"], [4]⟩],
        TabbySync.ItemState.file "x.tmp" [9]], ∀ n b, s = TabbySync.ItemState.file n b →
        TabbySync.isExcluded n = false →
        ([n], b) ∈ TabbySync.extract_zip_archive (TabbySync.create_zip_archive
          [TabbySync.ItemState.file "config.yaml" [1, 2],
           TabbySync.ItemState.dir "plugins"
             [⟨"a.js", ["plugins", "a.js"], [3]⟩, ⟨"debug.log", ["plugins", "debug.log"], [4]⟩,
           ],
           TabbySync.ItemState.file "x.tmp" [9]])) ∧
      (∀ e ∈ TabbySync.extract_zip_archive (TabbySync.create_zip_archive
          [TabbySync.ItemState.file "config.yaml" [1, 2],
           TabbySync.ItemState.dir "plugins"
             [⟨"a.js", ["plugins", "a.js"], [3]⟩, ⟨"debug.log", ["plugins", "debug.log"], [4]⟩],
           TabbySync.ItemState.file "x.tmp" [9]]),
        TabbySync.isExcluded (TabbySync.baseName e.1) = false)) :=
  ⟨by decide, C7_pack_unpack_roundtrip _ (by decide)⟩

/-- C9 counterexample: `dir_hash` feeds files in the order `os.walk` yields
them without sorting, so two traversal orders (here: a permutation) of the
same two-file directory — files `a` holding byte `49` and `b` holding byte
`50` — already produce different fingerprints, falsifying traversal-order
insensitivity. -/
theorem C9_order_sensitivity_counterexample :
    List.Perm
      [TabbySync.WalkFile.mk "a" ["a"] [49], TabbySync.WalkFile.mk "b" ["b"] [50]]
      [TabbySync.WalkFile.mk "b" ["b"] [50], TabbySync.WalkFile.mk "a" ["a"] [49]] ∧
    TabbySync.dir_hash
        [TabbySync.WalkFile.mk "a" ["a"] [49], TabbySync.WalkFile.mk "b" ["b"] [50]]
      ≠ TabbySync.dir_hash
        [TabbySync.WalkFile.mk "b" ["b"] [50], TabbySync.WalkFile.mk "a" ["a"] [49]] := by
  constructor
  · decide
  · decide

/-- C9 (amended): the directory fingerprint is determined by the
traversal-ordered sequence of non-excluded `(relative path, bytes)` pairs —
not by their set, since reordering can change it; appending a file whose
base name matches an exclusion pattern never changes it; and renames,
content edits, additions and deletions change it on concrete witnesses. -/
theorem C9_dir_hash_determined_by_stream (w1 w2 : List TabbySync.WalkFile)
    (h : TabbySync.nonExcludedSeq w1 = TabbySync.nonExcludedSeq w2) :
    TabbySync.dir_hash w1 = TabbySync.dir_hash w2 ∧
    (∀ (w : List TabbySync.WalkFile) (f : TabbySync.WalkFile),
      TabbySync.isExcluded f.base = true →
      TabbySync.dir_hash (w ++ [f]) = TabbySync.dir_hash w) ∧
    TabbySync.dir_hash [TabbySync.WalkFile.mk "a" ["a"] [49]]
      ≠ TabbySync.dir_hash [TabbySync.WalkFile.mk "b" ["b"] [49]] ∧
    TabbySync.dir_hash [TabbySync.WalkFile.mk "a" ["a"] [49]]
      ≠ TabbySync.dir_hash [TabbySync.WalkFile.mk "a" ["a"] [50]] ∧
    TabbySync.dir_hash [TabbySync.WalkFile.mk "a" ["a"] [49]]
      ≠ TabbySync.dir_hash [] := by
  refine ⟨?_, ?_, by decide, by decide, by decide⟩
  · unfold TabbySync.dir_hash
    rw [TabbySync.dirHashStream_eq, TabbySync.dirHashStream_eq, h]
  · intro w f hex
    unfold TabbySync.dir_hash
    rw [TabbySync.dirHashStream_eq, TabbySync.dirHashStream_eq]
    have : TabbySync.nonExcludedSeq (w ++ [f]) = TabbySync.nonExcludedSeq w := by
      simp [TabbySync.nonExcludedSeq, List.filterMap_append, hex]
    rw [this]

/-- Witness for C9 (amended): a walk listing a kept file and an excluded
`debug.log` has the same fingerprint as the walk listing only the kept
file — their non-excluded streams agree. -/
theorem C9_dir_hash_determined_by_stream_witness :
    TabbySync.nonExcludedSeq
        [TabbySync.WalkFile.mk "a" ["a"] [49], TabbySync.WalkFile.mk "debug.log" ["debug.log"] [7]]
      = TabbySync.nonExcludedSeq [TabbySync.WalkFile.mk "a" ["a"] [49]] ∧
    TabbySync.dir_hash
        [TabbySync.WalkFile.mk "a" ["a"] [49], TabbySync.WalkFile.mk "debug.log" ["debug.log"] [7]]
      = TabbySync.dir_hash [TabbySync.WalkFile.mk "a" ["a"] [49]] :=
  ⟨by decide,
    (C9_dir_hash_determined_by_stream
      [TabbySync.WalkFile.mk "a" ["a"] [49], TabbySync.WalkFile.mk "debug.log" ["debug.log"] [7]]
      [TabbySync.WalkFile.mk "a" ["a"] [49]] (by decide)).1⟩
namespace ConfigSync

theorem calculate_file_hash_readOk (lf : Option String) :
    calculate_file_hash lf true = lf.map TabbySync.md5Str := rfl

theorem calculate_file_hash_readFail (lf : Option String) :
    calculate_file_hash lf false = none := rfl

theorem sync_noop (y : Yaml) (st : SyncState) (o : Oracles) (rc : String)
    (hg : st.gist = some (some rc))
    (he : o.ensureOk = true) (hro : o.readOk = true) (hf : o.fetchOk = true)
    (hl : st.localFile.map TabbySync.md5Str = st.metadata.last_local_hash)
    (hr : some (TabbySync.md5Str rc) = st.metadata.last_remote_hash) :
    sync y false false st o = (SRes.success, st) := by
  unfold sync create_gist_if_not_exists get_remote_config
  rw [he, hg, hf, hro]
  simp only [Bool.true_eq_false, if_false, Bool.false_eq_true]
  rw [calculate_file_hash_readOk, if_pos ⟨hl, hr⟩, ← hg]

end ConfigSync
namespace ConfigSync

/-- The per-cycle guarantee shared by all claims about `sync`'s metadata
handling: on a successful cycle whose initial content-hash read did not
fail, the stored fingerprints match the final local file and remote store;
on any successful cycle the history grew by at most one entry; on failure
the metadata record is untouched.  (When the byte-read of an existing file
raised, `calculate_file_hash` returned `None` and a successful upload
commits `None` fingerprints — the C1 counterexample.) -/
def SyncSpec (st : SyncState) (o : Oracles) (r : SRes × SyncState) : Prop :=
  (r.1 = SRes.success → o.readOk = true →
    r.2.metadata.last_local_hash = r.2.localFile.map TabbySync.md5Str ∧
    (∃ rc, r.2.gist = some (some rc) ∧
      r.2.metadata.last_remote_hash = some (TabbySync.md5Str rc))) ∧
  (r.1 = SRes.success →
    (r.2.metadata = st.metadata ∨
      ∃ e, r.2.metadata.sync_history = st.metadata.sync_history ++ [e])) ∧
  (r.1 ≠ SRes.success → r.2.metadata = st.metadata)

theorem SyncSpec_fail (st : SyncState) (o : Oracles) (st2 : SyncState)
    (h : st2.metadata = st.metadata) : SyncSpec st o (SRes.failure, st2) :=
  ⟨fun hs => SRes.noConfusion hs, fun hs => SRes.noConfusion hs, fun _ => h⟩

theorem SyncSpec_exn (st : SyncState) (o : Oracles) (st2 : SyncState)
    (h : st2.metadata = st.metadata) : SyncSpec st o (SRes.exn, st2) :=
  ⟨fun hs => SRes.noConfusion hs, fun hs => SRes.noConfusion hs, fun _ => h⟩

theorem sync_spec_aux (y : Yaml) (fu fd : Bool) (lf : Option String)
    (rc : String) (m : Metadata) (bks : List String) (o : Oracles)
    (he : o.ensureOk = true) (hf : o.fetchOk = true) :
    SyncSpec ⟨lf, some (some rc), m, bks⟩ o
      (sync y fu fd ⟨lf, some (some rc), m, bks⟩ o) := by
  unfold sync create_gist_if_not_exists get_remote_config
  rw [he, hf]
  simp only [Bool.true_eq_false, if_false]
  cases fu with
  | true =>
    rw [if_pos rfl]
    cases lf with
    | none => exact SyncSpec_fail _ _ _ rfl
    | some lc =>
      cases huok : o.uploadOk with
      | false =>
        simp only [huok, Bool.false_eq_true, if_false]
        exact SyncSpec_fail _ _ _ rfl
      | true =>
        simp only [huok, if_pos rfl]
        refine ⟨fun _ hro => ⟨by simp [commitMeta, hro, calculate_file_hash],
          ⟨lc, rfl, by simp [commitMeta, hro, calculate_file_hash]⟩⟩,
          fun _ => Or.inr ⟨⟨o.now, "upload", m.device_id⟩, by simp [commitMeta]⟩,
          fun hn => absurd rfl hn⟩
  | false =>
    rw [if_neg (by simp)]
    cases fd with
    | true =>
      rw [if_pos rfl]
      by_cases hrc : rc = ""
      · rw [if_pos hrc]
        exact SyncSpec_fail _ _ _ rfl
      · rw [if_neg hrc]
        cases lf with
        | none =>
          cases hwok : o.writeOk with
          | false =>
            simp only [hwok, Bool.false_eq_true, if_false]
            exact SyncSpec_fail _ _ _ rfl
          | true =>
            simp only [hwok, if_pos rfl]
            refine ⟨fun _ _ => ⟨by simp [commitMeta], ⟨rc, rfl, by simp [commitMeta]⟩⟩,
              fun _ => Or.inr ⟨⟨o.now, "download", m.device_id⟩, by simp [commitMeta]⟩,
              fun hn => absurd rfl hn⟩
        | some lc =>
          cases hbok : o.backupOk with
          | false =>
            simp only [hbok, Bool.false_eq_true, if_false]
            cases hwok : o.writeOk with
            | false =>
              simp only [hwok, Bool.false_eq_true, if_false]
              exact SyncSpec_fail _ _ _ rfl
            | true =>
              simp only [hwok, if_pos rfl]
              refine ⟨fun _ _ => ⟨by simp [commitMeta], ⟨rc, rfl, by simp [commitMeta]⟩⟩,
                fun _ => Or.inr ⟨⟨o.now, "download", m.device_id⟩, by simp [commitMeta]⟩,
                fun hn => absurd rfl hn⟩
          | true =>
            simp only [hbok, if_pos rfl]
            cases hwok : o.writeOk with
            | false =>
              simp only [hwok, Bool.false_eq_true, if_false]
              exact SyncSpec_fail _ _ _ rfl
            | true =>
              simp only [hwok, if_pos rfl]
              refine ⟨fun _ _ => ⟨by simp [commitMeta], ⟨rc, rfl, by simp [commitMeta]⟩⟩,
                fun _ => Or.inr ⟨⟨o.now, "download", m.device_id⟩, by simp [commitMeta]⟩,
                fun hn => absurd rfl hn⟩
    | false =>
      rw [if_neg (by simp)]
      by_cases h1 : calculate_file_hash lf o.readOk = m.last_local_hash <;>
        by_cases h2 : some (TabbySync.md5Str rc) = m.last_remote_hash
      · -- no-op branch
        rw [if_pos ⟨h1, h2⟩]
        refine ⟨fun _ hro => ⟨?_, ⟨rc, rfl, h2.symm⟩⟩, fun _ => Or.inl rfl,
          fun hn => absurd rfl hn⟩
        rw [hro, calculate_file_hash_readOk] at h1
        exact h1.symm
      · -- local unchanged, remote changed: download
        rw [if_neg (fun hc => h2 hc.2), if_neg (fun hc => hc.1 h1),
          if_pos ⟨h1, h2⟩]
        by_cases hrc : rc = ""
        · rw [if_pos hrc]
          exact SyncSpec_fail _ _ _ rfl
        · rw [if_neg hrc]
          cases lf with
          | none =>
            cases hwok : o.writeOk with
            | false =>
              simp only [hwok, Bool.false_eq_true, if_false]
              exact SyncSpec_fail _ _ _ rfl
            | true =>
              simp only [hwok, if_pos rfl]
              refine ⟨fun _ _ => ⟨by simp [commitMeta], ⟨rc, rfl, by simp [commitMeta]⟩⟩,
                fun _ => Or.inr ⟨⟨o.now, "download", m.device_id⟩, by simp [commitMeta]⟩,
                fun hn => absurd rfl hn⟩
          | some lc =>
            cases hbok : o.backupOk with
            | false =>
              simp only [hbok, Bool.false_eq_true, if_false]
              cases hwok : o.writeOk with
              | false =>
                simp only [hwok, Bool.false_eq_true, if_false]
                exact SyncSpec_fail _ _ _ rfl
              | true =>
                simp only [hwok, if_pos rfl]
                refine ⟨fun _ _ => ⟨by simp [commitMeta], ⟨rc, rfl, by simp [commitMeta]⟩⟩,
                  fun _ => Or.inr ⟨⟨o.now, "download", m.device_id⟩, by simp [commitMeta]⟩,
                  fun hn => absurd rfl hn⟩
            | true =>
              simp only [hbok, if_pos rfl]
              cases hwok : o.writeOk with
              | false =>
                simp only [hwok, Bool.false_eq_true, if_false]
                exact SyncSpec_fail _ _ _ rfl
              | true =>
                simp only [hwok, if_pos rfl]
                refine ⟨fun _ _ => ⟨by simp [commitMeta], ⟨rc, rfl, by simp [commitMeta]⟩⟩,
                  fun _ => Or.inr ⟨⟨o.now, "download", m.device_id⟩, by simp [commitMeta]⟩,
                  fun hn => absurd rfl hn⟩
      · -- local changed, remote unchanged: upload
        rw [if_neg (fun hc => h1 hc.1), if_pos ⟨h1, h2⟩]
        cases lf with
        | none => exact SyncSpec_exn _ _ _ rfl
        | some lc =>
          cases huok : o.uploadOk with
          | false =>
            simp only [huok, Bool.false_eq_true, if_false]
            exact SyncSpec_fail _ _ _ rfl
          | true =>
            simp only [huok, if_pos rfl]
            refine ⟨fun _ hro => ⟨by simp [commitMeta, hro, calculate_file_hash],
              ⟨lc, rfl, by simp [commitMeta, hro, calculate_file_hash]⟩⟩,
              fun _ => Or.inr ⟨⟨o.now, "upload", m.device_id⟩, by simp [commitMeta]⟩,
              fun hn => absurd rfl hn⟩
      · -- both changed: merge
        rw [if_neg (fun hc => h1 hc.1), if_neg (fun hc => h2 hc.2),
          if_neg (fun hc => h1 hc.1), if_pos ⟨h1, h2⟩]
        cases lf with
        | none => exact SyncSpec_fail _ _ _ rfl
        | some lc =>
          cases hp1 : y.parse lc with
          | none =>
            simp only [hp1]
            exact SyncSpec_fail _ _ _ rfl
          | some cfgl =>
            simp only [hp1]
            cases hp2 : y.parse rc with
            | none =>
              simp only [hp2]
              exact SyncSpec_fail _ _ _ rfl
            | some cfgr =>
              simp only [hp2]
              cases hbok : o.backupOk with
              | false =>
                simp only [hbok, Bool.false_eq_true, if_false]
                cases hd : y.dump (merge_configs cfgl cfgr) with
                | none =>
                  simp only [hd]
                  exact SyncSpec_fail _ _ _ rfl
                | some mc =>
                  simp only [hd]
                  cases hwok : o.writeOk with
                  | false =>
                    simp only [hwok, Bool.false_eq_true, if_false]
                    exact SyncSpec_fail _ _ _ rfl
                  | true =>
                    simp only [hwok, if_pos rfl]
                    cases huok : o.uploadOk with
                    | false =>
                      simp only [huok, Bool.false_eq_true, if_false]
                      exact SyncSpec_fail _ _ _ rfl
                    | true =>
                      simp only [huok, if_pos rfl]
                      refine ⟨fun _ _ => ⟨by simp [commitMeta], ⟨mc, rfl, by simp [commitMeta]⟩⟩,
                        fun _ => Or.inr ⟨⟨o.now, "merge", m.device_id⟩, by simp [commitMeta]⟩,
                        fun hn => absurd rfl hn⟩
              | true =>
                simp only [hbok, if_pos rfl]
                cases hd : y.dump (merge_configs cfgl cfgr) with
                | none =>
                  simp only [hd]
                  exact SyncSpec_fail _ _ _ rfl
                | some mc =>
                  simp only [hd]
                  cases hwok : o.writeOk with
                  | false =>
                    simp only [hwok, Bool.false_eq_true, if_false]
                    exact SyncSpec_fail _ _ _ rfl
                  | true =>
                    simp only [hwok, if_pos rfl]
                    cases huok : o.uploadOk with
                    | false =>
                      simp only [huok, Bool.false_eq_true, if_false]
                      exact SyncSpec_fail _ _ _ rfl
                    | true =>
                      simp only [huok, if_pos rfl]
                      refine ⟨fun _ _ => ⟨by simp [commitMeta], ⟨mc, rfl, by simp [commitMeta]⟩⟩,
                        fun _ => Or.inr ⟨⟨o.now, "merge", m.device_id⟩, by simp [commitMeta]⟩,
                        fun hn => absurd rfl hn⟩

end ConfigSync

namespace ConfigSync

theorem SyncSpec_metadata_congr (st st2 : SyncState) (o : Oracles)
    (r : SRes × SyncState) (h : st.metadata = st2.metadata)
    (hs : SyncSpec st2 o r) : SyncSpec st o r := by
  unfold SyncSpec
  rw [h]
  exact hs

/-- Every cycle of `sync` satisfies `SyncSpec`: stored fingerprints match the
final on-disk and remote contents on success, at most one history entry is
appended, and a non-successful cycle leaves the metadata record untouched. -/
theorem sync_spec (y : Yaml) (fu fd : Bool) (st : SyncState) (o : Oracles) :
    SyncSpec st o (sync y fu fd st o) := by
  obtain ⟨lf, g, m, bks⟩ := st
  cases he : o.ensureOk with
  | false =>
    unfold sync create_gist_if_not_exists
    rw [he]
    simp only [if_pos rfl]
    exact SyncSpec_fail _ _ _ rfl
  | true =>
    cases g with
    | none =>
      cases hfo : o.fetchOk with
      | false =>
        unfold sync create_gist_if_not_exists get_remote_config
        rw [he, hfo]
        simp only [Bool.true_eq_false, if_false, if_pos rfl]
        exact SyncSpec_fail _ _ _ rfl
      | true =>
        unfold sync create_gist_if_not_exists get_remote_config
        rw [he, hfo]
        simp only [Bool.true_eq_false, if_false]
        exact SyncSpec_fail _ _ _ rfl
    | some og =>
      cases og with
      | none =>
        cases hfo : o.fetchOk with
        | false =>
          unfold sync create_gist_if_not_exists get_remote_config
          rw [he, hfo]
          simp only [Bool.true_eq_false, if_false, if_pos rfl]
          exact SyncSpec_fail _ _ _ rfl
        | true =>
          unfold sync create_gist_if_not_exists get_remote_config
          rw [he, hfo]
          simp only [Bool.true_eq_false, if_false]
          exact SyncSpec_fail _ _ _ rfl
      | some rc =>
        cases hfo : o.fetchOk with
        | false =>
          unfold sync create_gist_if_not_exists get_remote_config
          rw [he, hfo]
          simp only [Bool.true_eq_false, if_false, if_pos rfl]
          exact SyncSpec_fail _ _ _ rfl
        | true => exact sync_spec_aux y fu fd lf rc m bks o he hfo

end ConfigSync
namespace ConfigSync

/-- A small concrete instance of the YAML library boundary, used by the
witnesses: the string `"BROKEN"` fails to parse, every other string parses
to a one-profile document, and dumping renders the opaque `rest` code. -/
def toyYaml : Yaml where
  parse s := if s = "BROKEN" then none else some ⟨some [⟨some s, 0⟩], 1⟩
  dump c := some (toString c.rest)

end ConfigSync

/-- C1 counterexample: with an existing local `config.yaml` (content
`"abc"`) whose initial byte-read fails transiently (`readOk = false`, so
`calculate_file_hash` returns `None`, unequal to the stored last-local
fingerprint) while the remote is unchanged, the upload branch re-reads the
file, uploads it and returns success — but commits `last_local_hash =
last_remote_hash = None`, which does not equal the MD5 of the file now on
disk or of the content now in the remote store, falsifying the claimed
invariant for a successful cycle that performed a write (one `"upload"`
history entry was appended). -/
theorem C1_read_failure_counterexample :
    (ConfigSync.sync ConfigSync.toyYaml false false
        ⟨some "abc", some (some "abc"),
          ⟨some 1, some (TabbySync.md5Str "abc"), some (TabbySync.md5Str "abc"), 7, []⟩, []⟩
        ⟨true, false, true, 3, true, true, true, 9⟩).1 = ConfigSync.SRes.success ∧
    (ConfigSync.sync ConfigSync.toyYaml false false
        ⟨some "abc", some (some "abc"),
          ⟨some 1, some (TabbySync.md5Str "abc"), some (TabbySync.md5Str "abc"), 7, []⟩, []⟩
        ⟨true, false, true, 3, true, true, true, 9⟩).2.localFile = some "abc" ∧
    (ConfigSync.sync ConfigSync.toyYaml false false
        ⟨some "abc", some (some "abc"),
          ⟨some 1, some (TabbySync.md5Str "abc"), some (TabbySync.md5Str "abc"), 7, []⟩, []⟩
        ⟨true, false, true, 3, true, true, true, 9⟩).2.gist = some (some "abc") ∧
    (ConfigSync.sync ConfigSync.toyYaml false false
        ⟨some "abc", some (some "abc"),
          ⟨some 1, some (TabbySync.md5Str "abc"), some (TabbySync.md5Str "abc"), 7, []⟩, []⟩
        ⟨true, false, true, 3, true, true, true, 9⟩).2.metadata.sync_history
      = [⟨9, "upload", 7⟩] ∧
    (ConfigSync.sync ConfigSync.toyYaml false false
        ⟨some "abc", some (some "abc"),
          ⟨some 1, some (TabbySync.md5Str "abc"), some (TabbySync.md5Str "abc"), 7, []⟩, []⟩
        ⟨true, false, true, 3, true, true, true, 9⟩).2.metadata.last_local_hash = none ∧
    (ConfigSync.sync ConfigSync.toyYaml false false
        ⟨some "abc", some (some "abc"),
          ⟨some 1, some (TabbySync.md5Str "abc"), some (TabbySync.md5Str "abc"), 7, []⟩, []⟩
        ⟨true, false, true, 3, true, true, true, 9⟩).2.metadata.last_remote_hash = none ∧
    (none : Option (List Nat)) ≠ some (TabbySync.md5Str "abc") := by
  refine ⟨by decide, by decide, by decide, by decide, by decide, by decide, by decide⟩

/-- C1 (amended): metadata is committed only after the corresponding
external write succeeded.  For every cycle: if `sync` returns success and
the cycle's initial content-hash read did not fail, the stored last-local
fingerprint equals the MD5 of the config file now on disk and the stored
last-remote fingerprint equals the MD5 of the content now in the remote
store; on any successful cycle either the metadata is exactly as before
(the no-write no-op) or exactly one history entry has been appended; and if
`sync` does not return success, the metadata record — fingerprints and
history — is exactly as it was before the cycle.  (When the byte-read of an
existing file raises, `calculate_file_hash` returns `None` and a successful
upload commits `None` fingerprints — the counterexample.) -/
theorem C1_metadata_commit (y : ConfigSync.Yaml) (fu fd : Bool)
    (st : ConfigSync.SyncState) (o : ConfigSync.Oracles) :
    ((ConfigSync.sync y fu fd st o).1 = ConfigSync.SRes.success →
      o.readOk = true →
      (ConfigSync.sync y fu fd st o).2.metadata.last_local_hash
        = ((ConfigSync.sync y fu fd st o).2.localFile).map TabbySync.md5Str ∧
      (∃ rc, (ConfigSync.sync y fu fd st o).2.gist = some (some rc) ∧
        (ConfigSync.sync y fu fd st o).2.metadata.last_remote_hash
          = some (TabbySync.md5Str rc))) ∧
    ((ConfigSync.sync y fu fd st o).1 = ConfigSync.SRes.success →
      ((ConfigSync.sync y fu fd st o).2.metadata = st.metadata ∨
        ∃ e, (ConfigSync.sync y fu fd st o).2.metadata.sync_history
          = st.metadata.sync_history ++ [e])) ∧
    ((ConfigSync.sync y fu fd st o).1 ≠ ConfigSync.SRes.success →
      (ConfigSync.sync y fu fd st o).2.metadata = st.metadata) :=
  ConfigSync.sync_spec y fu fd st o

/-- Witness for C1 (amended): a concrete local-only-changed cycle (stored
fingerprints match the remote but not the changed local file; all externals
succeed, read included) returns success, stores the fingerprints of the
final local file and remote content, and appends one history entry. -/
theorem C1_metadata_commit_witness :
    (ConfigSync.sync ConfigSync.toyYaml false false
        ⟨some "new", some (some "abc"),
          ⟨none, some (TabbySync.md5Str "abc"), some (TabbySync.md5Str "abc"), 7, []⟩, []⟩
        ⟨true, true, true, 3, true, true, true, 9⟩).1 = ConfigSync.SRes.success ∧
    ((ConfigSync.sync ConfigSync.toyYaml false false
        ⟨some "new", some (some "abc"),
          ⟨none, some (TabbySync.md5Str "abc"), some (TabbySync.md5Str "abc"), 7, []⟩, []⟩
        ⟨true, true, true, 3, true, true, true, 9⟩).2.metadata.last_local_hash
      = ((ConfigSync.sync ConfigSync.toyYaml false false
        ⟨some "new", some (some "abc"),
          ⟨none, some (TabbySync.md5Str "abc"), some (TabbySync.md5Str "abc"), 7, []⟩, []⟩
        ⟨true, true, true, 3, true, true, true, 9⟩).2.localFile).map TabbySync.md5Str ∧
      (∃ rc, (ConfigSync.sync ConfigSync.toyYaml false false
        ⟨some "new", some (some "abc"),
          ⟨none, some (TabbySync.md5Str "abc"), some (TabbySync.md5Str "abc"), 7, []⟩, []⟩
        ⟨true, true, true, 3, true, true, true, 9⟩).2.gist = some (some rc) ∧
        (ConfigSync.sync ConfigSync.toyYaml false false
        ⟨some "new", some (some "abc"),
          ⟨none, some (TabbySync.md5Str "abc"), some (TabbySync.md5Str "abc"), 7, []⟩, []⟩
        ⟨true, true, true, 3, true, true, true, 9⟩).2.metadata.last_remote_hash
          = some (TabbySync.md5Str rc))) ∧
    ((ConfigSync.sync ConfigSync.toyYaml false false
        ⟨some "new", some (some "abc"),
          ⟨none, some (TabbySync.md5Str "abc"), some (TabbySync.md5Str "abc"), 7, []⟩, []⟩
        ⟨true, true, true, 3, true, true, true, 9⟩).2.metadata
        = (⟨none, some (TabbySync.md5Str "abc"), some (TabbySync.md5Str "abc"), 7, []⟩ :
            ConfigSync.Metadata) ∨
      ∃ e, (ConfigSync.sync ConfigSync.toyYaml false false
        ⟨some "new", some (some "abc"),
          ⟨none, some (TabbySync.md5Str "abc"), some (TabbySync.md5Str "abc"), 7, []⟩, []⟩
        ⟨true, true, true, 3, true, true, true, 9⟩).2.metadata.sync_history
          = (⟨none, some (TabbySync.md5Str "abc"), some (TabbySync.md5Str "abc"), 7, []⟩ :
              ConfigSync.Metadata).sync_history ++ [e]) :=
  ⟨by decide,
    (C1_metadata_commit ConfigSync.toyYaml false false
      ⟨some "new", some (some "abc"),
        ⟨none, some (TabbySync.md5Str "abc"), some (TabbySync.md5Str "abc"), 7, []⟩, []⟩
      ⟨true, true, true, 3, true, true, true, 9⟩).1 (by decide) rfl,
    (C1_metadata_commit ConfigSync.toyYaml false false
      ⟨some "new", some (some "abc"),
        ⟨none, some (TabbySync.md5Str "abc"), some (TabbySync.md5Str "abc"), 7, []⟩, []⟩
      ⟨true, true, true, 3, true, true, true, 9⟩).2.1 (by decide)⟩

/-- C2: a cycle without force flags whose local fingerprint equals the
stored last-local fingerprint and whose remote fingerprint equals the
stored last-remote fingerprint returns success performing no write at all —
the local file, the remote store, the backups and the whole metadata record
(history included) are unchanged; consequently, after any successful
non-forced cycle, an immediately following cycle whose externals (network
and the content-hash read of `calculate_file_hash`) are healthy is exactly
such a no-op. -/
theorem C2_noop_idempotence (y : ConfigSync.Yaml) :
    (∀ (st : ConfigSync.SyncState) (o : ConfigSync.Oracles) (rc : String),
      st.gist = some (some rc) → o.ensureOk = true → o.readOk = true →
      o.fetchOk = true →
      st.localFile.map TabbySync.md5Str = st.metadata.last_local_hash →
      some (TabbySync.md5Str rc) = st.metadata.last_remote_hash →
      ConfigSync.sync y false false st o = (ConfigSync.SRes.success, st)) ∧
    (∀ (st : ConfigSync.SyncState) (o o2 : ConfigSync.Oracles),
      o.readOk = true → o2.ensureOk = true → o2.readOk = true →
      o2.fetchOk = true →
      (ConfigSync.sync y false false st o).1 = ConfigSync.SRes.success →
      ConfigSync.sync y false false ((ConfigSync.sync y false false st o).2) o2
        = (ConfigSync.SRes.success, (ConfigSync.sync y false false st o).2)) := by
  constructor
  · intro st o rc hg he hro hf hl hr
    exact ConfigSync.sync_noop y st o rc hg he hro hf hl hr
  · intro st o o2 hro he2 hro2 hf2 hs
    obtain ⟨hll, rc, hgist, hlr⟩ := (ConfigSync.sync_spec y false false st o).1 hs hro
    exact ConfigSync.sync_noop y _ o2 rc hgist he2 hro2 hf2 hll.symm hlr.symm

/-- Witness for C2: a concrete cycle whose local and remote fingerprints
both match the stored ones is a success that changes nothing. -/
theorem C2_noop_idempotence_witness :
    ((⟨some "abc", some (some "abc"),
        ⟨some 1, some (TabbySync.md5Str "abc"), some (TabbySync.md5Str "abc"), 7,
          [⟨1, "upload", 7⟩]⟩, []⟩ : ConfigSync.SyncState).gist = some (some "abc")) ∧
    ConfigSync.sync ConfigSync.toyYaml false false
        ⟨some "abc", some (some "abc"),
          ⟨some 1, some (TabbySync.md5Str "abc"), some (TabbySync.md5Str "abc"), 7,
            [⟨1, "upload", 7⟩]⟩, []⟩
        ⟨true, true, true, 3, true, true, true, 9⟩
      = (ConfigSync.SRes.success,
          ⟨some "abc", some (some "abc"),
            ⟨some 1, some (TabbySync.md5Str "abc"), some (TabbySync.md5Str "abc"), 7,
              [⟨1, "upload", 7⟩]⟩, []⟩) :=
  ⟨rfl,
    (C2_noop_idempotence ConfigSync.toyYaml).1
      ⟨some "abc", some (some "abc"),
        ⟨some 1, some (TabbySync.md5Str "abc"), some (TabbySync.md5Str "abc"), 7,
          [⟨1, "upload", 7⟩]⟩, []⟩
      ⟨true, true, true, 3, true, true, true, 9⟩ "abc" rfl rfl rfl rfl rfl rfl⟩

/-- C5 counterexample: a both-changed cycle whose remote content fails to
parse (all transports healthy, remote strictly newer per `updated_at`)
returns plain failure with local file, remote store and metadata all
unchanged — no conflict strategy is consulted and no "surviving" content is
chosen, contrary to the claimed newest-wins fallback. -/
theorem C5_parse_failure_counterexample :
    ConfigSync.toyYaml.parse "BROKEN" = none ∧
    ConfigSync.sync ConfigSync.toyYaml false false
        ⟨some "loc", some (some "BROKEN"),
          ⟨some 1, some (TabbySync.md5Str "old"), some (TabbySync.md5Str "other"), 7, []⟩, []⟩
        ⟨true, true, true, 99, true, true, true, 100⟩
      = (ConfigSync.SRes.failure,
          ⟨some "loc", some (some "BROKEN"),
            ⟨some 1, some (TabbySync.md5Str "old"), some (TabbySync.md5Str "other"), 7, []⟩,
            []⟩) := by
  constructor
  · rfl
  · decide

/-- C5 (amended): in the both-changed case, if the local or the remote
document fails to parse, `sync` aborts and returns failure with the whole
state — local file, remote store, backups, metadata — unchanged; the
configured conflict strategy (which only the launcher stores, and which no
code consults) is not applied. -/
theorem C5_parse_failure_aborts (y : ConfigSync.Yaml) (st : ConfigSync.SyncState)
    (o : ConfigSync.Oracles) (rc lc : String)
    (hg : st.gist = some (some rc)) (hlf : st.localFile = some lc)
    (he : o.ensureOk = true) (hro : o.readOk = true) (hf : o.fetchOk = true)
    (h1 : st.localFile.map TabbySync.md5Str ≠ st.metadata.last_local_hash)
    (h2 : some (TabbySync.md5Str rc) ≠ st.metadata.last_remote_hash)
    (hp : y.parse lc = none ∨ y.parse rc = none) :
    ConfigSync.sync y false false st o = (ConfigSync.SRes.failure, st) := by
  obtain ⟨lf, g, m, bks⟩ := st
  cases hg
  cases hlf
  unfold ConfigSync.sync ConfigSync.create_gist_if_not_exists ConfigSync.get_remote_config
  rw [he, hf]
  simp only [Bool.true_eq_false, if_false]
  rw [hro, ConfigSync.calculate_file_hash_readOk]
  rw [if_neg (by simp), if_neg (by simp)]
  rw [if_neg (fun hc => h1 hc.1), if_neg (fun hc => h2 hc.2),
    if_neg (fun hc => h1 hc.1), if_pos ⟨h1, h2⟩]
  rcases hp with hp | hp
  · simp only [hp]
  · cases hpl : y.parse lc with
    | none => simp only [hpl]
    | some cl =>
      simp only [hpl, hp]

/-- Witness for C5 (amended): the counterexample's concrete cycle satisfies
the amended statement. -/
theorem C5_parse_failure_aborts_witness :
    (Option.map TabbySync.md5Str (some "loc") ≠ some (TabbySync.md5Str "old") ∧
      some (TabbySync.md5Str "BROKEN") ≠ some (TabbySync.md5Str "other")) ∧
    ConfigSync.sync ConfigSync.toyYaml false false
        ⟨some "loc", some (some "BROKEN"),
          ⟨some 1, some (TabbySync.md5Str "old"), some (TabbySync.md5Str "other"), 7, []⟩, []⟩
        ⟨true, true, true, 99, true, true, true, 100⟩
      = (ConfigSync.SRes.failure,
          ⟨some "loc", some (some "BROKEN"),
            ⟨some 1, some (TabbySync.md5Str "old"), some (TabbySync.md5Str "other"), 7, []⟩,
            []⟩) :=
  ⟨⟨by decide, by decide⟩,
    C5_parse_failure_aborts ConfigSync.toyYaml
      ⟨some "loc", some (some "BROKEN"),
        ⟨some 1, some (TabbySync.md5Str "old"), some (TabbySync.md5Str "other"), 7, []⟩, []⟩
      ⟨true, true, true, 99, true, true, true, 100⟩ "BROKEN" "loc" rfl rfl rfl rfl rfl
      (by decide) (by decide) (Or.inr rfl)⟩

/-- C8 counterexample: on a first-ever run (freshly created default metadata
with null stored fingerprints) with an existing local config file and a
reachable remote, the cycle is classified as both-changed and records a
`"merge"` history entry — not the claimed local-only-changed classification
with an initial `"upload"` — and the remote ends up holding the merged
dump, not the local content. -/
theorem C8_first_run_counterexample :
    (ConfigSync.default_metadata 7).last_local_hash = none ∧
    (ConfigSync.default_metadata 7).last_remote_hash = none ∧
    ((ConfigSync.sync ConfigSync.toyYaml false false
        ⟨some "local", some (some "remote"), ConfigSync.default_metadata 7, []⟩
        ⟨true, true, true, 3, true, true, true, 9⟩).2.metadata.sync_history.map
          (fun e => e.action) = ["merge"]) ∧
    "merge" ≠ "upload" ∧
    (ConfigSync.sync ConfigSync.toyYaml false false
        ⟨some "local", some (some "remote"), ConfigSync.default_metadata 7, []⟩
        ⟨true, true, true, 3, true, true, true, 9⟩).2.gist ≠ some (some "local") := by
  refine ⟨rfl, rfl, by decide, by decide, by decide⟩

/-- C8 (amended): a first-ever run — metadata with both stored fingerprints
null — with an existing local file and all external calls succeeding is
classified as both-changed and performs a Merge: the merged document is
written to the local file and uploaded, both stored fingerprints become the
merged document's fingerprint, and a `"merge"` history entry is appended. -/
theorem C8_first_run_merges (y : ConfigSync.Yaml) (st : ConfigSync.SyncState)
    (o : ConfigSync.Oracles) (rc lc : String) (cl cr : ConfigSync.Config) (mc : String)
    (hg : st.gist = some (some rc)) (hlf : st.localFile = some lc)
    (hm1 : st.metadata.last_local_hash = none)
    (hm2 : st.metadata.last_remote_hash = none)
    (he : o.ensureOk = true) (hro : o.readOk = true) (hf : o.fetchOk = true)
    (hb : o.backupOk = true) (hw : o.writeOk = true) (hu : o.uploadOk = true)
    (hp1 : y.parse lc = some cl) (hp2 : y.parse rc = some cr)
    (hd : y.dump (ConfigSync.merge_configs cl cr) = some mc) :
    ConfigSync.sync y false false st o
      = (ConfigSync.SRes.success,
          ⟨some mc, some (some mc),
            ConfigSync.commitMeta st.metadata o.now (some (TabbySync.md5Str mc))
              (some (TabbySync.md5Str mc)) "merge",
            st.backups ++ [lc]⟩) := by
  obtain ⟨lf, g, m, bks⟩ := st
  cases hg
  cases hlf
  simp only at hm1 hm2
  unfold ConfigSync.sync ConfigSync.create_gist_if_not_exists ConfigSync.get_remote_config
  rw [he, hf]
  simp only [Bool.true_eq_false, if_false]
  rw [hro, ConfigSync.calculate_file_hash_readOk]
  rw [if_neg (by simp), if_neg (by simp)]
  have h1 : Option.map TabbySync.md5Str (some lc) ≠ m.last_local_hash := by
    rw [hm1]
    exact Option.noConfusion
  have h2 : some (TabbySync.md5Str rc) ≠ m.last_remote_hash := by
    rw [hm2]
    exact Option.noConfusion
  rw [if_neg (fun hc => h1 hc.1), if_neg (fun hc => h2 hc.2),
    if_neg (fun hc => h1 hc.1), if_pos ⟨h1, h2⟩]
  simp only [hp1, hp2, hb, if_pos rfl, hd, hw, hu]
  simp

/-- Witness for C8 (amended): the counterexample's concrete first-ever run,
through the amended theorem. -/
theorem C8_first_run_merges_witness :
    ConfigSync.toyYaml.parse "local" = some ⟨some [⟨some "local", 0⟩], 1⟩ ∧
    ConfigSync.sync ConfigSync.toyYaml false false
        ⟨some "local", some (some "remote"), ConfigSync.default_metadata 7, []⟩
        ⟨true, true, true, 3, true, true, true, 9⟩
      = (ConfigSync.SRes.success,
          ⟨some "1", some (some "1"),
            ConfigSync.commitMeta (ConfigSync.default_metadata 7) 9
              (some (TabbySync.md5Str "1")) (some (TabbySync.md5Str "1")) "merge",
            [] ++ ["local"]⟩) :=
  ⟨rfl,
    C8_first_run_merges ConfigSync.toyYaml
      ⟨some "local", some (some "remote"), ConfigSync.default_metadata 7, []⟩
      ⟨true, true, true, 3, true, true, true, 9⟩ "remote" "local"
      ⟨some [⟨some "local", 0⟩], 1⟩ ⟨some [⟨some "remote", 0⟩], 1⟩ "1"
      rfl rfl rfl rfl rfl rfl rfl rfl rfl rfl rfl rfl rfl⟩

/-- C10: in the both-changed (merge) path the merged document is written to
the local config file before the upload is attempted: when the upload then
fails, `sync` returns failure with the local file containing the merged
content, the remote store and the whole metadata record (history included)
unchanged, and — when the backup copy succeeded — the prior local content
preserved only in the new backup file. -/
theorem C10_merge_write_before_upload (y : ConfigSync.Yaml)
    (st : ConfigSync.SyncState) (o : ConfigSync.Oracles) (rc lc : String)
    (cl cr : ConfigSync.Config) (mc : String)
    (hg : st.gist = some (some rc)) (hlf : st.localFile = some lc)
    (he : o.ensureOk = true) (hro : o.readOk = true) (hf : o.fetchOk = true)
    (h1 : st.localFile.map TabbySync.md5Str ≠ st.metadata.last_local_hash)
    (h2 : some (TabbySync.md5Str rc) ≠ st.metadata.last_remote_hash)
    (hp1 : y.parse lc = some cl) (hp2 : y.parse rc = some cr)
    (hd : y.dump (ConfigSync.merge_configs cl cr) = some mc)
    (hw : o.writeOk = true) (hu : o.uploadOk = false) :
    ConfigSync.sync y false false st o
      = (ConfigSync.SRes.failure,
          ⟨some mc, some (some rc), st.metadata,
            if o.backupOk then st.backups ++ [lc] else st.backups⟩) := by
  obtain ⟨lf, g, m, bks⟩ := st
  cases hg
  cases hlf
  unfold ConfigSync.sync ConfigSync.create_gist_if_not_exists ConfigSync.get_remote_config
  rw [he, hf]
  simp only [Bool.true_eq_false, if_false]
  rw [hro, ConfigSync.calculate_file_hash_readOk]
  rw [if_neg (by simp), if_neg (by simp)]
  rw [if_neg (fun hc => h1 hc.1), if_neg (fun hc => h2 hc.2),
    if_neg (fun hc => h1 hc.1), if_pos ⟨h1, h2⟩]
  simp only [hp1, hp2, hd, hw, hu, Bool.false_eq_true, if_false, if_pos rfl]
  cases hbok : o.backupOk <;> simp [hbok]

/-- Witness for C10: a concrete both-changed cycle whose upload fails leaves
the merged document on disk, metadata untouched, and the old local content
in the backup. -/
theorem C10_merge_write_before_upload_witness :
    (Option.map TabbySync.md5Str (some "local") ≠ some (TabbySync.md5Str "old") ∧
      some (TabbySync.md5Str "remote") ≠ some (TabbySync.md5Str "other")) ∧
    ConfigSync.sync ConfigSync.toyYaml false false
        ⟨some "local", some (some "remote"),
          ⟨some 1, some (TabbySync.md5Str "old"), some (TabbySync.md5Str "other"), 7, []⟩, []⟩
        ⟨true, true, true, 3, false, true, true, 9⟩
      = (ConfigSync.SRes.failure,
          ⟨some "1", some (some "remote"),
            ⟨some 1, some (TabbySync.md5Str "old"), some (TabbySync.md5Str "other"), 7, []⟩,
            if (true : Bool) then ([] : List String) ++ ["local"] else []⟩) :=
  ⟨⟨by decide, by decide⟩,
    C10_merge_write_before_upload ConfigSync.toyYaml
      ⟨some "local", some (some "remote"),
        ⟨some 1, some (TabbySync.md5Str "old"), some (TabbySync.md5Str "other"), 7, []⟩, []⟩
      ⟨true, true, true, 3, false, true, true, 9⟩ "remote" "local"
      ⟨some [⟨some "local", 0⟩], 1⟩ ⟨some [⟨some "remote", 0⟩], 1⟩ "1"
      rfl rfl rfl rfl rfl (by decide) (by decide) rfl rfl rfl rfl rfl⟩

namespace ConfigSync

theorem sync_backup_aux (y : Yaml) (fu fd : Bool) (lf : Option String)
    (rc : String) (m : Metadata) (bks : List String) (o : Oracles) (lc : String)
    (he : o.ensureOk = true) (hf : o.fetchOk = true)
    (hb : o.backupOk = true) (hlf : lf = some lc) :
    (sync y fu fd ⟨lf, some (some rc), m, bks⟩ o).2.localFile ≠ some lc →
      lc ∈ (sync y fu fd ⟨lf, some (some rc), m, bks⟩ o).2.backups := by
  cases hlf
  unfold sync create_gist_if_not_exists get_remote_config
  rw [he, hf]
  simp only [Bool.true_eq_false, if_false]
  cases fu with
  | true =>
    rw [if_pos rfl]
    cases huok : o.uploadOk with
    | false =>
      simp only [huok, Bool.false_eq_true, if_false]
      exact fun hch => absurd rfl hch
    | true =>
      simp only [huok, if_pos rfl]
      exact fun hch => absurd rfl hch
  | false =>
    rw [if_neg (by simp)]
    cases fd with
    | true =>
      rw [if_pos rfl]
      by_cases hrc : rc = ""
      · rw [if_pos hrc]
        exact fun hch => absurd rfl hch
      · rw [if_neg hrc]
        simp only [hb, if_pos rfl]
        cases hwok : o.writeOk with
        | false =>
          simp only [hwok, Bool.false_eq_true, if_false]
          exact fun _ => by simp
        | true =>
          simp only [hwok, if_pos rfl]
          exact fun _ => by simp
    | false =>
      rw [if_neg (by simp)]
      by_cases h1 : calculate_file_hash (some lc) o.readOk = m.last_local_hash <;>
        by_cases h2 : some (TabbySync.md5Str rc) = m.last_remote_hash
      · rw [if_pos ⟨h1, h2⟩]
        exact fun hch => absurd rfl hch
      · rw [if_neg (fun hc => h2 hc.2), if_neg (fun hc => hc.1 h1),
          if_pos ⟨h1, h2⟩]
        by_cases hrc : rc = ""
        · rw [if_pos hrc]
          exact fun hch => absurd rfl hch
        · rw [if_neg hrc]
          simp only [hb, if_pos rfl]
          cases hwok : o.writeOk with
          | false =>
            simp only [hwok, Bool.false_eq_true, if_false]
            exact fun _ => by simp
          | true =>
            simp only [hwok, if_pos rfl]
            exact fun _ => by simp
      · rw [if_neg (fun hc => h1 hc.1), if_pos ⟨h1, h2⟩]
        cases huok : o.uploadOk with
        | false =>
          simp only [huok, Bool.false_eq_true, if_false]
          exact fun hch => absurd rfl hch
        | true =>
          simp only [huok, if_pos rfl]
          exact fun hch => absurd rfl hch
      · rw [if_neg (fun hc => h1 hc.1), if_neg (fun hc => h2 hc.2),
          if_neg (fun hc => h1 hc.1), if_pos ⟨h1, h2⟩]
        cases hp1 : y.parse lc with
        | none =>
          simp only [hp1]
          exact fun hch => absurd rfl hch
        | some cfgl =>
          simp only [hp1]
          cases hp2 : y.parse rc with
          | none =>
            simp only [hp2]
            exact fun hch => absurd rfl hch
          | some cfgr =>
            simp only [hp2, hb, if_pos rfl]
            cases hd : y.dump (merge_configs cfgl cfgr) with
            | none =>
              simp only [hd]
              exact fun _ => by simp
            | some mc =>
              simp only [hd]
              cases hwok : o.writeOk with
              | false =>
                simp only [hwok, Bool.false_eq_true, if_false]
                exact fun _ => by simp
              | true =>
                simp only [hwok, if_pos rfl]
                cases huok : o.uploadOk with
                | false =>
                  simp only [huok, Bool.false_eq_true, if_false]
                  exact fun _ => by simp
                | true =>
                  simp only [huok, if_pos rfl]
                  exact fun _ => by simp

theorem sync_backup (y : Yaml) (fu fd : Bool) (st : SyncState) (o : Oracles)
    (lc : String) (hb : o.backupOk = true) (hlf : st.localFile = some lc) :
    (sync y fu fd st o).2.localFile ≠ some lc →
      lc ∈ (sync y fu fd st o).2.backups := by
  obtain ⟨lf, g, m, bks⟩ := st
  cases he : o.ensureOk with
  | false =>
    unfold sync create_gist_if_not_exists
    rw [he]
    simp only [if_pos rfl]
    exact fun hch => absurd hlf hch
  | true =>
    cases g with
    | none =>
      cases hfo : o.fetchOk with
      | false =>
        unfold sync create_gist_if_not_exists get_remote_config
        rw [he, hfo]
        simp only [Bool.true_eq_false, if_false, if_pos rfl]
        exact fun hch => absurd hlf hch
      | true =>
        unfold sync create_gist_if_not_exists get_remote_config
        rw [he, hfo]
        simp only [Bool.true_eq_false, if_false]
        exact fun hch => absurd hlf hch
    | some og =>
      cases og with
      | none =>
        cases hfo : o.fetchOk with
        | false =>
          unfold sync create_gist_if_not_exists get_remote_config
          rw [he, hfo]
          simp only [Bool.true_eq_false, if_false, if_pos rfl]
          exact fun hch => absurd hlf hch
        | true =>
          unfold sync create_gist_if_not_exists get_remote_config
          rw [he, hfo]
          simp only [Bool.true_eq_false, if_false]
          exact fun hch => absurd hlf hch
      | some rc =>
        cases hfo : o.fetchOk with
        | false =>
          unfold sync create_gist_if_not_exists get_remote_config
          rw [he, hfo]
          simp only [Bool.true_eq_false, if_false, if_pos rfl]
          exact fun hch => absurd hlf hch
        | true => exact sync_backup_aux y fu fd lf rc m bks o lc he hfo hb hlf

end ConfigSync

namespace Launcher

theorem sync_from_cloud_backup (st : DownState) (o : DownOracles) (lc : String)
    (hb : o.backupOk = true) (hlf : st.localFile = some lc) :
    (sync_from_cloud st o).2.localFile ≠ some lc →
      lc ∈ (sync_from_cloud st o).2.backups := by
  obtain ⟨lf, bks⟩ := st
  cases hlf
  unfold sync_from_cloud
  cases hp : o.pathFound with
  | false =>
    simp only [hp, if_pos rfl]
    exact fun hch => absurd rfl hch
  | true =>
    simp only [hp, Bool.true_eq_false, if_false]
    cases hd : o.download with
    | none => exact fun hch => absurd rfl hch
    | some cloud =>
      dsimp only
      by_cases hc : cloud = ""
      · rw [if_pos hc]
        exact fun hch => absurd rfl hch
      · rw [if_neg hc]
        simp only [hb, if_pos rfl]
        cases hw : o.writeOk with
        | false =>
          simp only [hw, if_pos rfl]
          exact fun _ => by simp
        | true =>
          simp only [hw, Bool.true_eq_false, if_false]
          cases hv : o.validOk with
          | false =>
            simp only [hv, if_pos rfl]
            cases hr : o.rollback with
            | false =>
              simp only [hr, Bool.false_eq_true, if_false]
              exact fun _ => by simp
            | true =>
              simp only [hr, if_pos rfl]
              exact fun _ => by simp
          | true =>
            simp only [hv, Bool.true_eq_false, if_false]
            exact fun _ => by simp

end Launcher

/-- C6 counterexample: a remote-only-changed cycle whose pre-write backup
copy fails still performs the destructive download — it returns success with
the local file overwritten by the remote content and no backup of the prior
state anywhere — refuting "a failed backup blocks the destructive write". -/
theorem C6_failed_backup_counterexample :
    (ConfigSync.sync ConfigSync.toyYaml false false
        ⟨some "old", some (some "new"),
          ⟨some 1, some (TabbySync.md5Str "old"), some (TabbySync.md5Str "other"), 7, []⟩, []⟩
        ⟨true, true, true, 3, true, true, false, 9⟩).1 = ConfigSync.SRes.success ∧
    (ConfigSync.sync ConfigSync.toyYaml false false
        ⟨some "old", some (some "new"),
          ⟨some 1, some (TabbySync.md5Str "old"), some (TabbySync.md5Str "other"), 7, []⟩, []⟩
        ⟨true, true, true, 3, true, true, false, 9⟩).2.localFile = some "new" ∧
    (ConfigSync.sync ConfigSync.toyYaml false false
        ⟨some "old", some (some "new"),
          ⟨some 1, some (TabbySync.md5Str "old"), some (TabbySync.md5Str "other"), 7, []⟩, []⟩
        ⟨true, true, true, 3, true, true, false, 9⟩).2.backups = [] := by
  refine ⟨by decide, by decide, by decide⟩

/-- C6 (amended): when the pre-write backup copy succeeds, every cycle of
the reconciliation engine that overwrites the local config file (download,
merge, forced download), and every launcher `sync_from_cloud` that
overwrites it, leaves a backup whose content equals the pre-write local
state; but a failed backup does not block the destructive write — the
source logs a warning and proceeds (the counterexample). -/
theorem C6_backup_before_destructive_write :
    (∀ (y : ConfigSync.Yaml) (fu fd : Bool) (st : ConfigSync.SyncState)
        (o : ConfigSync.Oracles) (lc : String),
      o.backupOk = true → st.localFile = some lc →
      (ConfigSync.sync y fu fd st o).2.localFile ≠ some lc →
      lc ∈ (ConfigSync.sync y fu fd st o).2.backups) ∧
    (∀ (lst : Launcher.DownState) (lo : Launcher.DownOracles) (lc : String),
      lo.backupOk = true → lst.localFile = some lc →
      (Launcher.sync_from_cloud lst lo).2.localFile ≠ some lc →
      lc ∈ (Launcher.sync_from_cloud lst lo).2.backups) :=
  ⟨fun y fu fd st o lc hb hlf => ConfigSync.sync_backup y fu fd st o lc hb hlf,
   fun lst lo lc hb hlf => Launcher.sync_from_cloud_backup lst lo lc hb hlf⟩

/-- Witness for C6 (amended): a concrete successful download cycle with a
working backup keeps the prior local content in the backups. -/
theorem C6_backup_before_destructive_write_witness :
    ((⟨true, true, true, 3, true, true, true, 9⟩ : ConfigSync.Oracles).backupOk = true ∧
      (ConfigSync.sync ConfigSync.toyYaml false false
        ⟨some "old", some (some "new"),
          ⟨some 1, some (TabbySync.md5Str "old"), some (TabbySync.md5Str "other"), 7, []⟩, []⟩
        ⟨true, true, true, 3, true, true, true, 9⟩).2.localFile ≠ some "old") ∧
    "old" ∈ (ConfigSync.sync ConfigSync.toyYaml false false
        ⟨some "old", some (some "new"),
          ⟨some 1, some (TabbySync.md5Str "old"), some (TabbySync.md5Str "other"), 7, []⟩, []⟩
        ⟨true, true, true, 3, true, true, true, 9⟩).2.backups :=
  ⟨⟨rfl, by decide⟩,
    C6_backup_before_destructive_write.1 ConfigSync.toyYaml false false
      ⟨some "old", some (some "new"),
        ⟨some 1, some (TabbySync.md5Str "old"), some (TabbySync.md5Str "other"), 7, []⟩, []⟩
      ⟨true, true, true, 3, true, true, true, 9⟩ "old" rfl rfl (by decide)⟩
